import Mathlib

/-! cirrus-cli: the instance dispatcher and the Parallels isolation driver

A shallow embedding of

* `internal/executor/instance/instance.go` (`NewFromProto`), and
* `internal/executor/instance/persistentworker/isolation/parallels/parallels.go`
  (`Parallels.Run`),

together with the library functions they call (`errors.Is`, `fmt.Errorf`,
`path.Join`, `strings.ToLower`, `retry.Do`).  Functions of other packages whose
bodies are not part of these two files are arguments of the embedding.
-/

namespace CirrusCLI

/-! ## Go error values -/

/-- A Go error value, as far as `Error()`, `Unwrap()` and `errors.Is` observe it. -/
inductive GoError where
  /-- A value without `Unwrap`, such as the result of `errors.New(text)`.  Two values
  made at different places are different values even when their texts agree, so
  `origin` names the place. -/
  | leaf (origin : String) (text : String)
  /-- The result of `fmt.Errorf` with one `%w` verb: `text` is the formatted
  message and `inner` the operand of `%w`, returned by `Unwrap()`. -/
  | wrapf (text : String) (inner : GoError)
  deriving DecidableEq

/-- The method `Error()`. -/
def GoError.Error : GoError → String
  | .leaf _ text => text
  | .wrapf text _ => text

/-- The function `errors.Is(err, target)`: walk the `Unwrap` chain of `err`,
comparing every link with `target`. -/
def errorsIs : GoError → GoError → Bool
  | .leaf o t, target => decide (GoError.leaf o t = target)
  | .wrapf t inner, target => decide (GoError.wrapf t inner = target) || errorsIs inner target

/-! ## `strings.ToLower` and `path.Join` -/

/-- The function `strings.ToLower`, on the ASCII letters.  Its only argument in
`NewFromProto` is an enum name, which is ASCII. -/
def stringsToLower (s : String) : String :=
  String.mk (s.data.map Char.toLower)

/-- The test `r+1 == n || path[r+1] == '/'` of `path.Clean`, on the input that
follows the current byte: the element ends here. -/
def elemEnds : List Char → Bool
  | [] => true
  | c :: _ => c = '/'

/-- The backtracking of `path.Clean` on a `..` element, once `out.w--` is done:
`for out.w > dotdot && out.index(out.w) != '/' { out.w-- }`. -/
def backtrackLoop (buf : List Char) (dotdot : Nat) : Nat → Nat
  | 0 => 0
  | w + 1 =>
    if dotdot < w + 1 ∧ buf.getD (w + 1) ' ' ≠ '/' then backtrackLoop buf dotdot w else w + 1

/-- The buffer of `path.Clean` after a `..` element removed the last element. -/
def backtrack (buf : List Char) (dotdot : Nat) : List Char :=
  buf.take (backtrackLoop buf dotdot (buf.length - 1))

/-- The slash that `path.Clean` writes before a real path element:
`if rooted && out.w != 1 || !rooted && out.w != 0 { out.append('/') }`. -/
def addSlash (rooted : Bool) (out : List Char) : List Char :=
  if (rooted ∧ out.length ≠ 1) ∨ (¬ rooted ∧ out.length ≠ 0) then out ++ ['/'] else out

/-- The loop `for r < n` of `path.Clean`.  The list is `path[r:]` and `out` holds
the bytes written so far.  With `copying = false` the loop is at the top of its
body; with `copying = true` it is inside the copy of a real path element,
`for ; r < n && path[r] != '/'; r++ { out.append(path[r]) }`, whose closing
slash is then an empty element for the next turn of the main loop. -/
def cleanLoop (rooted : Bool) : Bool → List Char → List Char → Nat → List Char
  | _, [], out, _ => out
  | true, c :: tl, out, dotdot =>
    if c = '/' then cleanLoop rooted false tl out dotdot
    else cleanLoop rooted true tl (out ++ [c]) dotdot
  | false, c :: tl, out, dotdot =>
    if c = '/' then
      -- empty path element
      cleanLoop rooted false tl out dotdot
    else if c = '.' ∧ elemEnds tl then
      -- . element
      cleanLoop rooted false tl out dotdot
    else
      match tl with
      | [] => addSlash rooted out ++ [c]
      | c2 :: tl2 =>
        if c = '.' ∧ c2 = '.' ∧ elemEnds tl2 then
          -- .. element: remove to last /
          if dotdot < out.length then
            cleanLoop rooted false tl2 (backtrack out dotdot) dotdot
          else if ¬ rooted then
            cleanLoop rooted false tl2 ((if 0 < out.length then out ++ ['/'] else out) ++ ['.', '.'])
              ((if 0 < out.length then out ++ ['/'] else out) ++ ['.', '.']).length
          else
            cleanLoop rooted false tl2 out dotdot
        else
          -- real path element
          cleanLoop rooted true (c2 :: tl2) (addSlash rooted out ++ [c]) dotdot

/-- The function `path.Clean`.  Go works on bytes; `/` and `.` are ASCII, so on
UTF-8 text the result is the same character by character. -/
def pathClean (path : String) : String :=
  if path = "" then "."
  else
    let out :=
      if path.data.head? = some '/' then cleanLoop true false path.data.tail ['/'] 1
      else cleanLoop false false path.data [] 0
    if out = [] then "." else String.mk out

/-- The loop of `path.Join` that fills `buf`. -/
def joinBuf : List String → String → String
  | [], buf => buf
  | e :: es, buf =>
    if buf ≠ "" ∨ e ≠ "" then joinBuf es ((if buf ≠ "" then buf ++ "/" else buf) ++ e)
    else joinBuf es buf

/-- The function `path.Join`. -/
def pathJoin (elem : List String) : String :=
  if elem.all (fun e => e = "") then "" else pathClean (joinBuf elem "")

/-! ## The messages of package `api` read by `NewFromProto` -/

namespace api

/-- The enum `api.Platform`.  The three named values are the ones the two files
mention; `unnamed n` is a number that has no name in the enum. -/
inductive Platform where
  | LINUX
  | DARWIN
  | WINDOWS
  | unnamed (number : Int)
  deriving DecidableEq

/-- The method `String()` of a protobuf enum: the name of the value, or its
number in decimal when it has no name. -/
def Platform.String : Platform → String
  | .LINUX => "LINUX"
  | .DARWIN => "DARWIN"
  | .WINDOWS => "WINDOWS"
  | .unnamed n => toString n

/-- The enum `api.Architecture`, by its number; it is only copied. -/
abbrev Architecture := Int

/-- An `api.AdditionalContainer`; it is only copied. -/
structure AdditionalContainer where
  Name : String
  Image : String
  deriving DecidableEq

/-- An `api.Command`; only `PipeStagesFromCommands` reads it. -/
structure Command where
  Name : String
  deriving DecidableEq

/-- The fields of `api.ContainerInstance` that `NewFromProto` reads.  `Cpu` is a
`float32`, kept as its bit pattern since it is only copied. -/
structure ContainerInstance where
  Image : String
  Cpu : Nat
  Memory : Nat
  AdditionalContainers : List AdditionalContainer
  Platform : Platform
  Architecture : Architecture
  OsVersion : String
  deriving DecidableEq

/-- The fields of `api.PipeInstance` that `NewFromProto` reads. -/
structure PipeInstance where
  Cpu : Nat
  Memory : Nat
  deriving DecidableEq

/-- The fields of `api.PrebuiltImageInstance` that `NewFromProto` reads;
`Arguments` is a `map[string]string`. -/
structure PrebuiltImageInstance where
  Repository : String
  Reference : String
  Dockerfile : String
  Arguments : List (String × String)
  deriving DecidableEq

/-- The oneof `Type` of `api.Isolation`: `None` is the case `NewFromProto`
builds, `other` any further case by its name. -/
inductive IsolationType where
  | None
  | other (case : String)
  deriving DecidableEq

/-- An `api.Isolation`; `Type_` is its field `Type`. -/
structure Isolation where
  Type_ : IsolationType
  deriving DecidableEq

/-- The field of `api.PersistentWorkerInstance` that `NewFromProto` reads; the
pointer may be nil. -/
structure PersistentWorkerInstance where
  Isolation : Option Isolation
  deriving DecidableEq

/-- An `api.DockerBuilder`: the field `Platform`, which `NewFromProto` reads, and
the remaining fields by name and value, which it does not. -/
structure DockerBuilder where
  Platform : Platform
  rest : List (String × String)
  deriving DecidableEq

/-- The fields of `api.MacOSInstance` that `NewFromProto` reads. -/
structure MacOSInstance where
  Image : String
  User : String
  Password : String
  Cpu : Nat
  Memory : Nat
  deriving DecidableEq

/-- The dynamic type of the message that `anypb.UnmarshalNew` returns: one of the
six types of the type switch, or any other message type, kept by its `%T` text. -/
inductive Message where
  | ContainerInstance (m : ContainerInstance)
  | PipeInstance (m : PipeInstance)
  | PrebuiltImageInstance (m : PrebuiltImageInstance)
  | PersistentWorkerInstance (m : PersistentWorkerInstance)
  | DockerBuilder (m : DockerBuilder)
  | MacOSInstance (m : MacOSInstance)
  | other (goType : String)
  deriving DecidableEq

end api

/-- An `any.Any`: a type URL and the encoded bytes. -/
structure AnyPb where
  TypeUrl : String
  Value : List Nat
  deriving DecidableEq

/-! ## The instances built by `NewFromProto` -/

namespace platform

/-- The two implementations of `platform.Platform` that `NewFromProto` builds:
`NewUnix()` and `NewWindows(osVersion)`. -/
inductive Platform where
  | NewUnix
  | NewWindows (osVersion : String)
  deriving DecidableEq

end platform

namespace container

/-- The struct `container.Instance`, with the fields that `NewFromProto` sets. -/
structure Instance where
  Image : String
  CPU : Nat
  Memory : Nat
  AdditionalContainers : List api.AdditionalContainer
  Platform : platform.Platform
  Architecture : Option api.Architecture
  CustomWorkingDir : String
  deriving DecidableEq

end container

/-- A stage of a pipe, as `PipeStagesFromCommands` returns it. -/
structure PipeStage where
  Image : String
  CommandFrom : String
  CommandTo : String
  deriving DecidableEq

/-- The struct `PipeInstance` of package `instance`. -/
structure PipeInstance where
  CPU : Nat
  Memory : Nat
  Stages : List PipeStage
  CustomWorkingDir : String
  deriving DecidableEq

/-- The struct `PrebuiltInstance` of package `instance`. -/
structure PrebuiltInstance where
  Image : String
  Dockerfile : String
  Arguments : List (String × String)
  deriving DecidableEq

/-- The struct `UnsupportedInstance` of package `instance`: the captured reason. -/
structure UnsupportedInstance where
  err : GoError
  deriving DecidableEq

/-- A value of the interface `abstract.Instance`: one of the four structs that
`NewFromProto` builds itself, or a value made by another package
(`persistentworker.New`, `tart.New`), known by a handle only. -/
inductive Instance where
  | container (i : container.Instance)
  | pipe (i : PipeInstance)
  | prebuilt (i : PrebuiltInstance)
  | unsupported (i : UnsupportedInstance)
  | foreign (handle : Nat)
  deriving DecidableEq

/-- A `logger.Lightweight`, by a handle. -/
structure Logger where
  handle : Nat
  deriving DecidableEq

/-- A `*security.Security`: the policy `security.NoSecurity()` returns, or any
other policy by a handle. -/
inductive Security where
  | NoSecurity
  | policy (handle : Nat)
  deriving DecidableEq

/-- A `context.Context` and a `runconfig.RunConfig`, by handles: `Run` only
passes them on. -/
structure RunConfig where
  handle : Nat
  deriving DecidableEq

/-- A call that `NewFromProto` makes to a constructor of another package, with
its arguments. -/
inductive Call where
  | persistentworkerNew (isolation : Option api.Isolation) (security : Security) (logger : Logger)
  | tartNew (image user password : String) (cpu memory : Nat) (logger : Logger)
  deriving DecidableEq

/-- What `NewFromProto` gets from outside its own file: the host OS
(`runtime.GOOS`) and the functions of other files and packages that it calls. -/
structure Deps where
  /-- The constant `runtime.GOOS`. -/
  goos : String
  /-- The function `anypb.UnmarshalNew(anyInstance, proto.UnmarshalOptions{})`. -/
  unmarshalNew : AnyPb → Except GoError api.Message
  /-- The function `PipeStagesFromCommands(commands)`. -/
  pipeStagesFromCommands : List api.Command → Except GoError (List PipeStage)
  /-- The function `persistentworker.New(isolation, security, logger)`. -/
  persistentworkerNew : Option api.Isolation → Security → Logger → Option Instance × Option GoError
  /-- The function `tart.New(image, user, password, cpu, memory, tart.WithLogger(logger))`. -/
  tartNew : String → String → String → Nat → Nat → Logger → Option Instance × Option GoError

/-- What a call of `NewFromProto` returns, `(abstract.Instance, error)`, and the
calls it made to the constructors of other packages, in order. -/
structure Returned where
  inst : Option Instance
  err : Option GoError
  calls : List Call
  deriving DecidableEq

/-- The variable `ErrFailedToCreateInstance`. -/
def ErrFailedToCreateInstance : GoError :=
  .leaf "instance.ErrFailedToCreateInstance" "failed to create instance"

/-- The variable `ErrUnsupportedInstance`. -/
def ErrUnsupportedInstance : GoError :=
  .leaf "instance.ErrUnsupportedInstance" "unsupported instance type"

/-- The function `NewFromProto` of `instance.go`. -/
def NewFromProto (deps : Deps) (anyInstance : Option AnyPb) (commands : List api.Command)
    (customWorkingDir : String) (logger : Logger) : Returned :=
  match anyInstance with
  | none =>
    ⟨some (.unsupported ⟨.wrapf (ErrUnsupportedInstance.Error ++
        ": got nil instance which means it\x27s probably not supported by the CLI")
        ErrUnsupportedInstance⟩), none, []⟩
  | some anyInstance =>
    match deps.unmarshalNew anyInstance with
    | .error err =>
      ⟨none, some (.wrapf (ErrFailedToCreateInstance.Error ++
        ": failed to unmarshal task\x27s instance: " ++ err.Error) ErrFailedToCreateInstance), []⟩
    | .ok dynamicInstance =>
      match dynamicInstance with
      | .ContainerInstance inst =>
        match inst.Platform with
        | .LINUX =>
          ⟨some (.container ⟨inst.Image, inst.Cpu, inst.Memory, inst.AdditionalContainers,
            .NewUnix, some inst.Architecture, customWorkingDir⟩), none, []⟩
        | .WINDOWS =>
          ⟨some (.container ⟨inst.Image, inst.Cpu, inst.Memory, inst.AdditionalContainers,
            .NewWindows inst.OsVersion, none, customWorkingDir⟩), none, []⟩
        | _ =>
          ⟨none, some (.wrapf (ErrFailedToCreateInstance.Error ++
            ": unsupported container instance platform: " ++ inst.Platform.String)
            ErrFailedToCreateInstance), []⟩
      | .PipeInstance inst =>
        match deps.pipeStagesFromCommands commands with
        | .error err => ⟨none, some err, []⟩
        | .ok stages =>
          ⟨some (.pipe ⟨inst.Cpu, inst.Memory, stages, customWorkingDir⟩), none, []⟩
      | .PrebuiltImageInstance inst =>
        ⟨some (.prebuilt ⟨pathJoin ["gcr.io", inst.Repository] ++ ":" ++ inst.Reference,
          inst.Dockerfile, inst.Arguments⟩), none, []⟩
      | .PersistentWorkerInstance inst =>
        let r := deps.persistentworkerNew inst.Isolation .NoSecurity logger
        ⟨r.1, r.2, [.persistentworkerNew inst.Isolation .NoSecurity logger]⟩
      | .DockerBuilder inst =>
        -- Ensures that we are not trying to run e.g. Windows-specific scripts on macOS
        let instanceOS := stringsToLower inst.Platform.String
        if (deps.goos ≠ "windows" ∧ instanceOS = "windows") ∨
            (deps.goos ≠ "darwin" ∧ instanceOS = "darwin") then
          ⟨none, some (.wrapf (ErrFailedToCreateInstance.Error ++ ": cannot run " ++ instanceOS ++
            " docker builder instance on " ++ deps.goos ++ " platform")
            ErrFailedToCreateInstance), []⟩
        else
          let r := deps.persistentworkerNew (some ⟨.None⟩) .NoSecurity logger
          ⟨r.1, r.2, [.persistentworkerNew (some ⟨.None⟩) .NoSecurity logger]⟩
      | .MacOSInstance inst =>
        let r := deps.tartNew inst.Image inst.User inst.Password inst.Cpu inst.Memory logger
        ⟨r.1, r.2, [.tartNew inst.Image inst.User inst.Password inst.Cpu inst.Memory logger]⟩
      | .other goType =>
        ⟨some (.unsupported ⟨.wrapf (ErrUnsupportedInstance.Error ++ ": " ++ goType)
          ErrUnsupportedInstance⟩), none, []⟩

/-- Modelled from the spec: the method `Run` of `UnsupportedInstance` is declared in
a file of package `instance` that is not among the sources.  The spec says of the
Unsupported variant "captured reason, never executes, `Run` always fails" and that
its `Run` "always fails with this same kind, carrying the original cause/type
info": `Run` returns the captured reason. -/
def UnsupportedInstance.Run (unsupported : UnsupportedInstance) (_config : RunConfig) :
    Option GoError :=
  some unsupported.err

/-! ## Definitions used by the proofs and the examples -/

/-- The characters of a decimal number. -/
def decimalChars : List Char := ['-', '0', '1', '2', '3', '4', '5', '6', '7', '8', '9']

/-- A path element that `path.Clean` copies as it is: not empty, not `.`, not
`..`, and without a slash. -/
def GoodSeg (s : List Char) : Prop :=
  s ≠ [] ∧ s ≠ ['.'] ∧ s ≠ ['.', '.'] ∧ '/' ∉ s

/-- The elements of a path, each with a slash before it. -/
def slashed : List (List Char) → List Char
  | [] => []
  | s :: t => '/' :: s ++ slashed t

/-- Dependencies for the examples: decoding is decided by the type URL, stage
derivation fails on an empty command list, and the two constructors of other
packages return fixed values. -/
def exampleDeps (goos : String) : Deps where
  goos := goos
  unmarshalNew := fun a =>
    if a.TypeUrl = "container-darwin" then .ok (.ContainerInstance ⟨"img", 1, 2, [], .DARWIN, 0, ""⟩)
    else if a.TypeUrl = "pipe" then .ok (.PipeInstance ⟨1, 2⟩)
    else if a.TypeUrl = "prebuilt" then .ok (.PrebuiltImageInstance ⟨"foo/bar", "v1", "Dockerfile", [("k", "v")]⟩)
    else if a.TypeUrl = "prebuilt-slash" then .ok (.PrebuiltImageInstance ⟨"foo/bar/", "v1", "", []⟩)
    else if a.TypeUrl = "builder-windows" then .ok (.DockerBuilder ⟨.WINDOWS, []⟩)
    else if a.TypeUrl = "builder-linux" then .ok (.DockerBuilder ⟨.LINUX, [("os_version", "11")]⟩)
    else .ok (.other "*api.FutureInstance")
  pipeStagesFromCommands := fun commands =>
    if commands = [] then .error (.leaf "pipe" "no commands to derive stages from")
    else .ok [⟨"alpine", "build", "test"⟩]
  persistentworkerNew := fun _ _ _ => (some (.foreign 7), none)
  tartNew := fun _ _ _ _ _ _ => (some (.foreign 8), none)

/-! ## `retry.Do` of `github.com/avast/retry-go`

The library that `parallels.go` imports for its address-discovery loop.  `Run`
passes the options `retry.Context` and `retry.RetryIf` only, so every other
setting keeps the default of `newDefaultRetryConfig`. -/

namespace retry

/-- The struct `Config` of retry-go, with the fields that decide which calls `Do`
makes.  The context is kept by what the retry loop observes of it: `context k` is
the value of `ctx.Err()` when it is looked at after `k` calls of the retried
function (`none` while the context is not done). -/
structure Config where
  attempts : Nat
  retryIf : GoError → Bool
  context : Nat → Option GoError

/-- The function `IsRecoverable`, the default of `retryIf`: true for every error
that is not wrapped by `retry.Unrecoverable`. -/
def IsRecoverable (_err : GoError) : Bool := true

/-- The function `newDefaultRetryConfig`: ten attempts, `IsRecoverable`, and
`context.Background()`, which is never done. -/
def newDefaultRetryConfig : Config :=
  ⟨10, IsRecoverable, fun _ => none⟩

/-- The option `retry.Context(ctx)`. -/
def Context (ctx : Nat → Option GoError) : Config → Config :=
  fun config => { config with context := ctx }

/-- The option `retry.RetryIf(retryIf)`. -/
def RetryIf (retryIf : GoError → Bool) : Config → Config :=
  fun config => { config with retryIf := retryIf }

/-- The error that `Do` returns when it gives up: a `retry.Error`, the log of the
errors of all attempts, whose text is `All attempts fail:` and one numbered line
for each. -/
def errorLog (log : List GoError) : GoError :=
  .leaf "retry.Error" ("All attempts fail:\n" ++
    "\n".intercalate (log.enum.map fun (i, e) => "#" ++ toString (i + 1) ++ ": " ++ e.Error))

/-- The loop `for n < config.attempts` of `Do`.  The first argument is
`config.attempts - n`; `s` is the state of the variables the retried closure
writes. -/
def loop {σ : Type} (config : Config) (retryableFunc : σ → σ × Option GoError) :
    Nat → Nat → σ → List GoError → σ × Option GoError
  | 0, _, s, log => (s, some (errorLog log))
  | left + 1, n, s, log =>
    match retryableFunc s with
    | (s, none) => (s, none)
    | (s, some err) =>
      if ¬ config.retryIf err then (s, some (errorLog (log ++ [err])))
      -- if this is last attempt - do not wait
      else if n = config.attempts - 1 then (s, some (errorLog (log ++ [err])))
      else
        -- select: the delay passes, or the context is done first
        match config.context (n + 1) with
        | some ctxErr => (s, some ctxErr)
        | none => loop config retryableFunc left (n + 1) s (log ++ [err])

/-- The function `retry.Do(retryableFunc, opts...)`. -/
def Do {σ : Type} (retryableFunc : σ → σ × Option GoError) (opts : List (Config → Config))
    (s : σ) : σ × Option GoError :=
  let config := opts.foldl (fun config opt => opt config) newDefaultRetryConfig
  match config.context 0 with
  | some ctxErr => (s, some ctxErr)
  | none => loop config retryableFunc config.attempts 0 s []

end retry

/-! ## The Parallels isolation driver -/

namespace parallels

/-- The variable `ErrFailed` of package `parallels`. -/
def ErrFailed : GoError :=
  .leaf "parallels.ErrFailed" "Parallels isolation failed"

/-- The struct `Parallels`. -/
structure Parallels where
  logger : Logger
  vmImage : String
  sshUser : String
  sshPassword : String
  agentOS : String
  deriving DecidableEq

/-- What `Run` reads of a `*VM`: the field `name` and the results of the methods
`Ident()` and `ClonedFromSuspended()`. -/
structure VM where
  name : String
  Ident : String
  ClonedFromSuspended : Bool
  deriving DecidableEq

/-- The arguments of `remoteagent.WaitForAgent` that vary (the last two are `nil`
and `""`). -/
structure AgentArgs where
  logger : Logger
  ip : String
  sshUser : String
  sshPassword : String
  agentOS : String
  arch : String
  config : RunConfig
  clonedFromSuspended : Bool
  deriving DecidableEq

/-- A call that `Run` makes on the VM or on the remote agent. -/
inductive Event where
  | NewVMClonedFrom (vmImage : String)
  | Start (vm : VM)
  | RetrieveIP (vm : VM)
  | WaitForAgent (args : AgentArgs)
  | Close (vm : VM)
  deriving DecidableEq

/-- One execution as `Run` sees it from outside its own file: the host
architecture, the variable `ErrDHCPSnoopFailed`, the `%q` verb of `fmt`, and the
results of the calls that `Run` makes.  `retrieveIP vm k` is the result of the
call number `k` (from 0) of `vm.RetrieveIP(ctx)`; `ctxErr k` is the value of
`ctx.Err()` when the retry loop looks at the context after `k` such calls. -/
structure World where
  goarch : String
  quote : String → String
  ErrDHCPSnoopFailed : GoError
  newVMClonedFrom : String → Except GoError VM
  start : VM → Option GoError
  retrieveIP : VM → Nat → String × Option GoError
  ctxErr : Nat → Option GoError
  waitForAgent : AgentArgs → Option GoError

/-- The variables that the closure given to `retry.Do` writes, and the calls it
made: the variable `ip`, the number of calls of `vm.RetrieveIP`, and the events. -/
structure ProbeState where
  ip : String
  calls : Nat
  events : List Event
  deriving DecidableEq

/-- The closure `func() error { ip, err = vm.RetrieveIP(ctx); return err }`. -/
def probe (w : World) (vm : VM) (s : ProbeState) : ProbeState × Option GoError :=
  (⟨(w.retrieveIP vm s.calls).1, s.calls + 1, s.events ++ [.RetrieveIP vm]⟩,
    (w.retrieveIP vm s.calls).2)

/-- The call of `retry.Do` in `Run`, from `var ip string`. -/
def retrieve (w : World) (vm : VM) : ProbeState × Option GoError :=
  retry.Do (probe w vm)
    [retry.Context w.ctxErr, retry.RetryIf (fun err => errorsIs err w.ErrDHCPSnoopFailed)]
    ⟨"", 0, []⟩

/-- The arguments with which `Run` calls `remoteagent.WaitForAgent`. -/
def agentArgs (w : World) (parallels : Parallels) (config : RunConfig) (vm : VM) (ip : String) :
    AgentArgs :=
  ⟨parallels.logger, ip, parallels.sshUser, parallels.sshPassword, parallels.agentOS, w.goarch,
    config, vm.ClonedFromSuspended⟩

/-- The body of `Run` below `defer vm.Close()`. -/
def runCloned (w : World) (parallels : Parallels) (config : RunConfig) (vm : VM) :
    Option GoError × List Event :=
  match w.start vm with
  | some err =>
    (some (.wrapf (ErrFailed.Error ++ ": failed to start VM " ++ w.quote vm.Ident ++ ": " ++
      err.Error) ErrFailed), [.Start vm])
  | none =>
    -- Wait for the VM to start and get its DHCP address
    match retrieve w vm with
    | (s, some err) =>
      (some (.wrapf (ErrFailed.Error ++ ": failed to retrieve VM " ++ w.quote vm.name ++
        " IP-address: " ++ err.Error) ErrFailed), [.Start vm] ++ s.events)
    | (s, none) =>
      (w.waitForAgent (agentArgs w parallels config vm s.ip),
        [.Start vm] ++ s.events ++ [.WaitForAgent (agentArgs w parallels config vm s.ip)])

/-- The method `Run` of `Parallels`: the error it returns and the calls it made,
in order.  The deferred `vm.Close()` runs when the body below it returns. -/
def Run (w : World) (parallels : Parallels) (config : RunConfig) : Option GoError × List Event :=
  match w.newVMClonedFrom parallels.vmImage with
  | .error err =>
    (some (.wrapf (ErrFailed.Error ++ ": failed to create VM cloned from " ++
      w.quote parallels.vmImage ++ ": " ++ err.Error) ErrFailed),
      [.NewVMClonedFrom parallels.vmImage])
  | .ok vm =>
    ((runCloned w parallels config vm).1,
      [.NewVMClonedFrom parallels.vmImage] ++ (runCloned w parallels config vm).2 ++ [.Close vm])

/-! ### Definitions used by the proofs and the examples -/

/-- The event is a call of `vm.Close()`. -/
def isClose : Event → Bool
  | .Close _ => true
  | _ => false

/-- The event is a call of `vm.RetrieveIP(ctx)`. -/
def isRetrieveIP : Event → Bool
  | .RetrieveIP _ => true
  | _ => false

/-- The event is a call of `remoteagent.WaitForAgent`. -/
def isWaitForAgent : Event → Bool
  | .WaitForAgent _ => true
  | _ => false

/-- The configuration with which `Run` calls `retry.Do`. -/
def runConfig (w : World) : retry.Config :=
  ⟨10, fun err => errorsIs err w.ErrDHCPSnoopFailed, w.ctxErr⟩

/-- The variable `ErrDHCPSnoopFailed` of the examples. -/
def exampleSnoop : GoError :=
  .leaf "parallels.ErrDHCPSnoopFailed" "failed to snoop the DHCP lease"

/-- The VM of the examples. -/
def exampleVM : VM := ⟨"cirrus-vm", "cirrus-vm-id", false⟩

/-- The settings of the examples. -/
def exampleParallels : Parallels := ⟨⟨0⟩, "template", "admin", "secret", "darwin"⟩

/-- An execution in which clone and start succeed, the context is never
cancelled, the first `failures` calls of `RetrieveIP` fail with an error that
wraps `ErrDHCPSnoopFailed`, every later one returns `10.0.0.5`, and the agent
answers with `agent`. -/
def exampleWorld (failures : Nat) (agent : Option GoError) : World where
  goarch := "arm64"
  quote := fun s => "\"" ++ s ++ "\""
  ErrDHCPSnoopFailed := exampleSnoop
  newVMClonedFrom := fun _ => .ok exampleVM
  start := fun _ => none
  retrieveIP := fun _ k =>
    if k < failures then ("", some (.wrapf "no lease yet" exampleSnoop)) else ("10.0.0.5", none)
  ctxErr := fun _ => none
  waitForAgent := fun _ => agent

/-- An execution in which clone and start succeed and every call of `RetrieveIP`
fails with an error that does not wrap `ErrDHCPSnoopFailed`. -/
def brokenWorld : World :=
  { exampleWorld 0 none with
    retrieveIP := fun _ _ => ("", some (.leaf "parallels.vm" "VM has no network interface")) }

/-- An execution in which the clone fails. -/
def cloneFailsWorld : World :=
  { exampleWorld 0 none with
    newVMClonedFrom := fun _ => .error (.leaf "parallels.prlctl" "template not found") }

/-- An execution in which clone and start succeed, every call of `RetrieveIP`
fails with an error that wraps `ErrDHCPSnoopFailed`, and the context is found
done once three calls were made. -/
def cancelledWorld : World :=
  { exampleWorld 10 none with
    ctxErr := fun k => if k < 3 then none else some (.leaf "context.Canceled" "context canceled") }

/-- An execution in which clone and start succeed, the first two calls of
`RetrieveIP` fail with an error that wraps `ErrDHCPSnoopFailed`, and the third
fails with an error that does not. -/
def lateBrokenWorld : World :=
  { exampleWorld 0 none with
    retrieveIP := fun _ k =>
      if k < 2 then ("", some (.wrapf "no lease yet" exampleSnoop))
      else ("", some (.leaf "parallels.vm" "VM has no network interface")) }

/-- The error of the examples with which the agent handshake fails. -/
def exampleAgentError : GoError :=
  .leaf "remoteagent" "agent did not come up in time"

end parallels

/-! ## Theorems -/

/-! ## Lemmas on errors and enum names -/

theorem errorsIs_wrapf_inner (text : String) (inner : GoError) :
    errorsIs (.wrapf text inner) inner = true := by
  cases inner <;> simp [errorsIs]

theorem digitChar_mem_decimalChars (k : Nat) (hk : k < 10) : Nat.digitChar k ∈ decimalChars := by
  interval_cases k <;> decide

theorem toDigitsCore_chars (fuel : Nat) :
    ∀ (n : Nat) (ds : List Char), (∀ c ∈ ds, c ∈ decimalChars) →
      ∀ c ∈ Nat.toDigitsCore 10 fuel n ds, c ∈ decimalChars := by
  induction fuel with
  | zero => intro n ds hds c hc; simpa [Nat.toDigitsCore] using hds c hc
  | succ fuel ih =>
    intro n ds hds c hc
    have hcons : ∀ c ∈ Nat.digitChar (n % 10) :: ds, c ∈ decimalChars := by
      intro c hc
      rcases List.mem_cons.mp hc with h | h
      · exact h ▸ digitChar_mem_decimalChars _ (Nat.mod_lt _ (by decide))
      · exact hds c h
    unfold Nat.toDigitsCore at hc
    by_cases h0 : n / 10 = 0
    · simp only [h0, if_true] at hc
      exact hcons c hc
    · simp only [h0, if_false] at hc
      exact ih _ _ hcons c hc

theorem natRepr_chars (n : Nat) : ∀ c ∈ (toString n).data, c ∈ decimalChars := by
  intro c hc
  have : (toString n).data = Nat.toDigits 10 n := rfl
  rw [this] at hc
  exact toDigitsCore_chars _ _ _ (by simp) c hc

theorem intToString_chars (n : Int) : ∀ c ∈ (toString n).data, c ∈ decimalChars := by
  intro c hc
  cases n with
  | ofNat m => exact natRepr_chars m c hc
  | negSucc m =>
    have : (toString (Int.negSucc m)).data = '-' :: (toString (m + 1)).data := rfl
    rw [this] at hc
    rcases List.mem_cons.mp hc with h | h
    · subst h; decide
    · exact natRepr_chars _ c h

theorem toLower_decimal_ne (c : Char) (hc : c ∈ decimalChars) :
    c.toLower ≠ 'w' ∧ c.toLower ≠ 'd' := by
  simp only [decimalChars, List.mem_cons, List.mem_singleton, List.not_mem_nil, or_false] at hc
  rcases hc with h | h | h | h | h | h | h | h | h | h | h <;> subst h <;> decide

theorem stringsToLower_unnamed (n : Int) :
    stringsToLower (toString n) ≠ "windows" ∧ stringsToLower (toString n) ≠ "darwin" := by
  have hall := intToString_chars n
  have key : ∀ (l : List Char), (∀ c ∈ l, c ∈ decimalChars) →
      l.map Char.toLower ≠ "windows".data ∧ l.map Char.toLower ≠ "darwin".data := by
    intro l hl
    cases l with
    | nil => exact ⟨by decide, by decide⟩
    | cons c tl =>
      have hc := toLower_decimal_ne c (hl c (List.mem_cons_self _ _))
      constructor
      · intro h
        have h1 : c.toLower = 'w' := (List.cons.inj h).1
        exact hc.1 h1
      · intro h
        have h1 : c.toLower = 'd' := (List.cons.inj h).1
        exact hc.2 h1
  have k := key _ hall
  constructor
  · intro h
    exact k.1 (congrArg String.data h)
  · intro h
    exact k.2 (congrArg String.data h)

theorem instanceOS_windows_iff (p : api.Platform) :
    stringsToLower p.String = "windows" ↔ p = .WINDOWS := by
  cases p with
  | LINUX => exact ⟨fun h => absurd h (by decide), fun h => by cases h⟩
  | DARWIN => exact ⟨fun h => absurd h (by decide), fun h => by cases h⟩
  | WINDOWS => exact ⟨fun _ => rfl, fun _ => by decide⟩
  | unnamed n => exact ⟨fun h => absurd h (stringsToLower_unnamed n).1, fun h => by cases h⟩

theorem instanceOS_darwin_iff (p : api.Platform) :
    stringsToLower p.String = "darwin" ↔ p = .DARWIN := by
  cases p with
  | LINUX => exact ⟨fun h => absurd h (by decide), fun h => by cases h⟩
  | DARWIN => exact ⟨fun _ => rfl, fun _ => by decide⟩
  | WINDOWS => exact ⟨fun h => absurd h (by decide), fun h => by cases h⟩
  | unnamed n => exact ⟨fun h => absurd h (stringsToLower_unnamed n).2, fun h => by cases h⟩

/-- Claim C1: with a nil descriptor, and with a descriptor that decodes to a
message of none of the six known types, NewFromProto returns an
UnsupportedInstance and a nil error (calling no other constructor); the reason
kept in the instance wraps ErrUnsupportedInstance, and it is the error that the
Run of that instance returns. -/
theorem NewFromProto_unsupported (deps : Deps) (commands : List api.Command)
    (customWorkingDir : String) (logger : Logger) (config : RunConfig) :
    (∃ err, NewFromProto deps none commands customWorkingDir logger
          = ⟨some (.unsupported ⟨err⟩), none, []⟩
        ∧ errorsIs err ErrUnsupportedInstance = true
        ∧ UnsupportedInstance.Run ⟨err⟩ config = some err) ∧
    (∀ (a : AnyPb) (goType : String), deps.unmarshalNew a = .ok (.other goType) →
      ∃ err, NewFromProto deps (some a) commands customWorkingDir logger
          = ⟨some (.unsupported ⟨err⟩), none, []⟩
        ∧ errorsIs err ErrUnsupportedInstance = true
        ∧ UnsupportedInstance.Run ⟨err⟩ config = some err) := by
  refine ⟨⟨_, rfl, errorsIs_wrapf_inner _ _, rfl⟩, ?_⟩
  intro a goType h
  refine ⟨.wrapf (ErrUnsupportedInstance.Error ++ ": " ++ goType) ErrUnsupportedInstance, ?_,
    errorsIs_wrapf_inner _ _, rfl⟩
  simp only [NewFromProto, h]

/-- The theorem of claim C1 at a descriptor that decodes to a message type of a later API. -/
theorem NewFromProto_unsupported_witness :
    ∃ err, NewFromProto (exampleDeps "linux") (some ⟨"future", []⟩) [] "" ⟨0⟩
        = ⟨some (.unsupported ⟨err⟩), none, []⟩
      ∧ errorsIs err ErrUnsupportedInstance = true
      ∧ UnsupportedInstance.Run ⟨err⟩ ⟨0⟩ = some err :=
  (NewFromProto_unsupported (exampleDeps "linux") [] "" ⟨0⟩ ⟨0⟩).2 ⟨"future", []⟩
    "*api.FutureInstance" rfl

/-- Claim C2: for a Container descriptor whose platform is neither LINUX nor
WINDOWS, NewFromProto returns no instance and an error that wraps
ErrFailedToCreateInstance; for LINUX and for WINDOWS it returns a container
instance (Unix platform with the declared architecture, or Windows platform with
the declared OS version and no architecture) and a nil error. -/
theorem NewFromProto_container (deps : Deps) (a : AnyPb) (inst : api.ContainerInstance)
    (commands : List api.Command) (customWorkingDir : String) (logger : Logger)
    (h : deps.unmarshalNew a = .ok (.ContainerInstance inst)) :
    (inst.Platform ≠ .LINUX → inst.Platform ≠ .WINDOWS →
      ∃ err, NewFromProto deps (some a) commands customWorkingDir logger = ⟨none, some err, []⟩
        ∧ errorsIs err ErrFailedToCreateInstance = true) ∧
    (inst.Platform = .LINUX →
      NewFromProto deps (some a) commands customWorkingDir logger
        = ⟨some (.container ⟨inst.Image, inst.Cpu, inst.Memory, inst.AdditionalContainers,
            .NewUnix, some inst.Architecture, customWorkingDir⟩), none, []⟩) ∧
    (inst.Platform = .WINDOWS →
      NewFromProto deps (some a) commands customWorkingDir logger
        = ⟨some (.container ⟨inst.Image, inst.Cpu, inst.Memory, inst.AdditionalContainers,
            .NewWindows inst.OsVersion, none, customWorkingDir⟩), none, []⟩) := by
  refine ⟨?_, ?_, ?_⟩
  · intro hl hw
    refine ⟨.wrapf (ErrFailedToCreateInstance.Error ++
      ": unsupported container instance platform: " ++ inst.Platform.String)
      ErrFailedToCreateInstance, ?_, errorsIs_wrapf_inner _ _⟩
    cases hp : inst.Platform with
    | LINUX => exact absurd hp hl
    | WINDOWS => exact absurd hp hw
    | DARWIN => simp only [NewFromProto, h, hp]
    | unnamed n => simp only [NewFromProto, h, hp]
  · intro hp
    simp only [NewFromProto, h, hp]
  · intro hp
    simp only [NewFromProto, h, hp]

/-- The theorem of claim C2 at a Container descriptor that declares DARWIN. -/
theorem NewFromProto_container_witness :
    ∃ err, NewFromProto (exampleDeps "linux") (some ⟨"container-darwin", []⟩) [] "" ⟨0⟩
        = ⟨none, some err, []⟩
      ∧ errorsIs err ErrFailedToCreateInstance = true :=
  (NewFromProto_container (exampleDeps "linux") ⟨"container-darwin", []⟩
    ⟨"img", 1, 2, [], .DARWIN, 0, ""⟩ [] "" ⟨0⟩ rfl).1 (by decide) (by decide)

/-- Claim C3: for a DockerBuilder descriptor, when the declared platform is
WINDOWS and the host OS is not windows, or the declared platform is DARWIN and
the host OS is not darwin, NewFromProto returns no instance and an error that
wraps ErrFailedToCreateInstance, and makes no call to persistentworker.New (nor
to any other constructor). -/
theorem NewFromProto_dockerBuilder_mismatch (deps : Deps) (a : AnyPb) (inst : api.DockerBuilder)
    (commands : List api.Command) (customWorkingDir : String) (logger : Logger)
    (h : deps.unmarshalNew a = .ok (.DockerBuilder inst))
    (hmis : (inst.Platform = .WINDOWS ∧ deps.goos ≠ "windows") ∨
      (inst.Platform = .DARWIN ∧ deps.goos ≠ "darwin")) :
    ∃ err, NewFromProto deps (some a) commands customWorkingDir logger = ⟨none, some err, []⟩
      ∧ errorsIs err ErrFailedToCreateInstance = true := by
  have hcond : (deps.goos ≠ "windows" ∧ stringsToLower inst.Platform.String = "windows") ∨
      (deps.goos ≠ "darwin" ∧ stringsToLower inst.Platform.String = "darwin") := by
    rcases hmis with ⟨hp, hg⟩ | ⟨hp, hg⟩
    · exact Or.inl ⟨hg, (instanceOS_windows_iff _).2 hp⟩
    · exact Or.inr ⟨hg, (instanceOS_darwin_iff _).2 hp⟩
  refine ⟨.wrapf (ErrFailedToCreateInstance.Error ++ ": cannot run " ++
    stringsToLower inst.Platform.String ++ " docker builder instance on " ++ deps.goos ++
    " platform") ErrFailedToCreateInstance, ?_, errorsIs_wrapf_inner _ _⟩
  simp only [NewFromProto, h]
  rw [if_pos hcond]

/-- The theorem of claim C3 at a WINDOWS builder on a darwin host. -/
theorem NewFromProto_dockerBuilder_mismatch_witness :
    ∃ err, NewFromProto (exampleDeps "darwin") (some ⟨"builder-windows", []⟩) [] "" ⟨0⟩
        = ⟨none, some err, []⟩
      ∧ errorsIs err ErrFailedToCreateInstance = true :=
  NewFromProto_dockerBuilder_mismatch (exampleDeps "darwin") ⟨"builder-windows", []⟩
    ⟨.WINDOWS, []⟩ [] "" ⟨0⟩ rfl (Or.inl ⟨rfl, by decide⟩)

/-- Claim C10: for a DockerBuilder descriptor that passes the host check (not
WINDOWS on a host that is not windows, not DARWIN on a host that is not darwin),
NewFromProto makes exactly one call, persistentworker.New with an isolation of
type None, the NoSecurity policy and the given logger, and returns the instance
and the error of that call unchanged, whatever the other fields of the
descriptor are. -/
theorem NewFromProto_dockerBuilder_delegates (deps : Deps) (a : AnyPb) (inst : api.DockerBuilder)
    (commands : List api.Command) (customWorkingDir : String) (logger : Logger)
    (h : deps.unmarshalNew a = .ok (.DockerBuilder inst))
    (hcheck : ¬ (inst.Platform = .WINDOWS ∧ deps.goos ≠ "windows") ∧
      ¬ (inst.Platform = .DARWIN ∧ deps.goos ≠ "darwin")) :
    NewFromProto deps (some a) commands customWorkingDir logger
      = ⟨(deps.persistentworkerNew (some ⟨.None⟩) .NoSecurity logger).1,
         (deps.persistentworkerNew (some ⟨.None⟩) .NoSecurity logger).2,
         [.persistentworkerNew (some ⟨.None⟩) .NoSecurity logger]⟩ := by
  have hcond : ¬ ((deps.goos ≠ "windows" ∧ stringsToLower inst.Platform.String = "windows") ∨
      (deps.goos ≠ "darwin" ∧ stringsToLower inst.Platform.String = "darwin")) := by
    rintro (⟨hg, hp⟩ | ⟨hg, hp⟩)
    · exact hcheck.1 ⟨(instanceOS_windows_iff _).1 hp, hg⟩
    · exact hcheck.2 ⟨(instanceOS_darwin_iff _).1 hp, hg⟩
  simp only [NewFromProto, h]
  rw [if_neg hcond]

/-- The theorem of claim C10 at a LINUX builder on a darwin host. -/
theorem NewFromProto_dockerBuilder_delegates_witness :
    NewFromProto (exampleDeps "darwin") (some ⟨"builder-linux", []⟩) [] "" ⟨3⟩
      = ⟨some (.foreign 7), none, [.persistentworkerNew (some ⟨.None⟩) .NoSecurity ⟨3⟩]⟩ :=
  NewFromProto_dockerBuilder_delegates (exampleDeps "darwin") ⟨"builder-linux", []⟩
    ⟨.LINUX, [("os_version", "11")]⟩ [] "" ⟨3⟩ rfl ⟨by decide, by decide⟩

/-- Claim C9, the claim as stated fails: with a stage derivation that fails with
an error of its own, NewFromProto on a Pipe descriptor returns that very error,
and it does not wrap ErrFailedToCreateInstance. -/
theorem NewFromProto_pipe_counterexample :
    (exampleDeps "linux").unmarshalNew ⟨"pipe", []⟩ = .ok (.PipeInstance ⟨1, 2⟩) ∧
    (exampleDeps "linux").pipeStagesFromCommands []
      = .error (.leaf "pipe" "no commands to derive stages from") ∧
    NewFromProto (exampleDeps "linux") (some ⟨"pipe", []⟩) [] "" ⟨0⟩
      = ⟨none, some (.leaf "pipe" "no commands to derive stages from"), []⟩ ∧
    errorsIs (.leaf "pipe" "no commands to derive stages from") ErrFailedToCreateInstance
      = false :=
  ⟨rfl, rfl, by decide, by decide⟩

/-- Claim C9, amended: for a Pipe descriptor, when PipeStagesFromCommands fails
NewFromProto returns no instance and the error of PipeStagesFromCommands itself,
unchanged and not wrapped again; when it succeeds NewFromProto returns a PipeInstance with the derived stages, the
cpu and memory of the descriptor and the given working-dir override, and a nil
error. -/
theorem NewFromProto_pipe (deps : Deps) (a : AnyPb) (inst : api.PipeInstance)
    (commands : List api.Command) (customWorkingDir : String) (logger : Logger)
    (h : deps.unmarshalNew a = .ok (.PipeInstance inst)) :
    (∀ err, deps.pipeStagesFromCommands commands = .error err →
      NewFromProto deps (some a) commands customWorkingDir logger = ⟨none, some err, []⟩) ∧
    (∀ stages, deps.pipeStagesFromCommands commands = .ok stages →
      NewFromProto deps (some a) commands customWorkingDir logger
        = ⟨some (.pipe ⟨inst.Cpu, inst.Memory, stages, customWorkingDir⟩), none, []⟩) := by
  refine ⟨?_, ?_⟩
  · intro err he
    simp only [NewFromProto, h, he]
  · intro stages hs
    simp only [NewFromProto, h, hs]

/-- The theorem of claim C9 at a command list from which one stage is derived, and at
the empty command list, for which the derivation fails. -/
theorem NewFromProto_pipe_witness :
    NewFromProto (exampleDeps "linux") (some ⟨"pipe", []⟩) [⟨"build"⟩] "/tmp/wd" ⟨0⟩
      = ⟨some (.pipe ⟨1, 2, [⟨"alpine", "build", "test"⟩], "/tmp/wd"⟩), none, []⟩ ∧
    NewFromProto (exampleDeps "linux") (some ⟨"pipe", []⟩) [] "/tmp/wd" ⟨0⟩
      = ⟨none, some (.leaf "pipe" "no commands to derive stages from"), []⟩ :=
  ⟨(NewFromProto_pipe (exampleDeps "linux") ⟨"pipe", []⟩ ⟨1, 2⟩ [⟨"build"⟩] "/tmp/wd" ⟨0⟩
      rfl).2 [⟨"alpine", "build", "test"⟩] rfl,
   (NewFromProto_pipe (exampleDeps "linux") ⟨"pipe", []⟩ ⟨1, 2⟩ [] "/tmp/wd" ⟨0⟩
      rfl).1 (.leaf "pipe" "no commands to derive stages from") rfl⟩

theorem cleanLoop_copy_cons (rooted : Bool) (c : Char) (tl out : List Char) (dotdot : Nat)
    (hc : c ≠ '/') :
    cleanLoop rooted true (c :: tl) out dotdot = cleanLoop rooted true tl (out ++ [c]) dotdot := by
  rw [cleanLoop, if_neg hc]

theorem cleanLoop_copy_slash (rooted : Bool) (tl out : List Char) (dotdot : Nat) :
    cleanLoop rooted true ('/' :: tl) out dotdot = cleanLoop rooted false tl out dotdot := by
  rw [cleanLoop, if_pos rfl]

theorem cleanLoop_start_single (rooted : Bool) (c : Char) (out : List Char) (dotdot : Nat)
    (hc : c ≠ '/') (hd : c ≠ '.') :
    cleanLoop rooted false [c] out dotdot = addSlash rooted out ++ [c] := by
  rw [cleanLoop, if_neg hc, if_neg (fun h => hd h.1)]

theorem cleanLoop_start_real (rooted : Bool) (c c2 : Char) (tl2 out : List Char) (dotdot : Nat)
    (hc : c ≠ '/') (h1 : ¬ (c = '.' ∧ elemEnds (c2 :: tl2) = true))
    (h2 : ¬ (c = '.' ∧ c2 = '.' ∧ elemEnds tl2 = true)) :
    cleanLoop rooted false (c :: c2 :: tl2) out dotdot
      = cleanLoop rooted true (c2 :: tl2) (addSlash rooted out ++ [c]) dotdot := by
  conv_lhs => rw [cleanLoop]
  rw [if_neg hc, if_neg h1]
  simp only [if_neg h2]

theorem cleanLoop_copy (seg : List Char) (hseg : '/' ∉ seg) :
    ∀ (out : List Char) (dotdot : Nat),
      cleanLoop false true seg out dotdot = out ++ seg ∧
      ∀ rest, cleanLoop false true (seg ++ '/' :: rest) out dotdot
        = cleanLoop false false rest (out ++ seg) dotdot := by
  induction seg with
  | nil =>
    intro out dotdot
    refine ⟨by simp [cleanLoop], fun rest => ?_⟩
    rw [List.nil_append, cleanLoop_copy_slash, List.append_nil]
  | cons c tl ih =>
    intro out dotdot
    have hc : c ≠ '/' := fun h => hseg (h ▸ List.mem_cons_self _ _)
    have htl : '/' ∉ tl := fun h => hseg (List.mem_cons_of_mem _ h)
    have ih2 := ih htl (out ++ [c]) dotdot
    constructor
    · rw [cleanLoop_copy_cons _ _ _ _ _ hc, ih2.1, List.append_assoc, List.singleton_append]
    · intro rest
      rw [List.cons_append, cleanLoop_copy_cons _ _ _ _ _ hc, ih2.2, List.append_assoc,
        List.singleton_append]

theorem cleanLoop_elem (seg : List Char) (hseg : GoodSeg seg) (out : List Char) (dotdot : Nat) :
    cleanLoop false false seg out dotdot = addSlash false out ++ seg ∧
    ∀ rest, cleanLoop false false (seg ++ '/' :: rest) out dotdot
      = cleanLoop false false rest (addSlash false out ++ seg) dotdot := by
  obtain ⟨hne, hdot, hdotdot, hslash⟩ := hseg
  cases seg with
  | nil => exact absurd rfl hne
  | cons c tl =>
    have hc : c ≠ '/' := fun h => hslash (h ▸ List.mem_cons_self _ _)
    have htl : '/' ∉ tl := fun h => hslash (List.mem_cons_of_mem _ h)
    cases tl with
    | nil =>
      have hcd : c ≠ '.' := fun h => hdot (by rw [h])
      constructor
      · exact cleanLoop_start_single _ _ _ _ hc hcd
      · intro rest
        rw [List.cons_append, List.nil_append,
          cleanLoop_start_real _ _ _ _ _ _ hc (fun h => hcd h.1) (fun h => hcd h.1),
          cleanLoop_copy_slash]
    | cons c2 tl2 =>
      have hc2 : c2 ≠ '/' := fun h => htl (h ▸ List.mem_cons_self _ _)
      have htl2 : '/' ∉ tl2 := fun h => htl (List.mem_cons_of_mem _ h)
      have h1 : ∀ rest, ¬ (c = '.' ∧ elemEnds (c2 :: rest) = true) := by
        rintro rest ⟨_, h⟩
        simp [elemEnds, hc2] at h
      have h2 : ∀ rest, ¬ (c = '.' ∧ c2 = '.' ∧ elemEnds (tl2 ++ rest) = true) := by
        rintro rest ⟨e1, e2, e3⟩
        cases tl2 with
        | nil => exact hdotdot (by rw [e1, e2])
        | cons c3 tl3 =>
          have hc3 : c3 ≠ '/' := fun h => htl2 (h ▸ List.mem_cons_self _ _)
          simp [elemEnds, hc3] at e3
      have copy := cleanLoop_copy (c2 :: tl2) htl (addSlash false out ++ [c]) dotdot
      constructor
      · have h0 := h2 []
        rw [List.append_nil] at h0
        rw [cleanLoop_start_real _ _ _ _ _ _ hc (h1 _) h0, copy.1, List.append_assoc,
          List.singleton_append]
      · intro rest
        have e := copy.2 rest
        rw [List.cons_append] at e
        rw [List.cons_append, List.cons_append,
          cleanLoop_start_real _ _ _ _ _ _ hc (h1 _) (h2 _), e, List.append_assoc,
          List.singleton_append]

theorem addSlash_false_ne_nil (out seg : List Char) (hseg : seg ≠ []) :
    addSlash false (out ++ seg) = out ++ seg ++ ['/'] := by
  have : (out ++ seg).length ≠ 0 := by
    cases seg with
    | nil => exact absurd rfl hseg
    | cons c tl => simp
  unfold addSlash
  rw [if_pos (Or.inr ⟨by simp, this⟩)]

theorem cleanLoop_segments (segs : List (List Char)) :
    ∀ (seg out : List Char) (dotdot : Nat), GoodSeg seg → (∀ s ∈ segs, GoodSeg s) →
      cleanLoop false false (seg ++ slashed segs) out dotdot
        = addSlash false out ++ seg ++ slashed segs := by
  induction segs with
  | nil =>
    intro seg out dotdot hseg _
    simpa [slashed] using (cleanLoop_elem seg hseg out dotdot).1
  | cons t r ih =>
    intro seg out dotdot hseg hall
    have ht : GoodSeg t := hall t (List.mem_cons_self _ _)
    have hr : ∀ s ∈ r, GoodSeg s := fun s hs => hall s (List.mem_cons_of_mem _ hs)
    have step := (cleanLoop_elem seg hseg out dotdot).2 (t ++ slashed r)
    simp only [slashed, List.cons_append] at step ⊢
    rw [step, ih t _ dotdot ht hr]
    have hne : addSlash false out ++ seg ≠ [] := by
      have := hseg.1
      cases seg with
      | nil => exact absurd rfl this
      | cons c tl => simp
    have : addSlash false (addSlash false out ++ seg) = addSlash false out ++ seg ++ ['/'] :=
      addSlash_false_ne_nil _ _ hseg.1
    rw [this]; simp

theorem intercalate_go_data (as : List String) :
    ∀ acc : String, (String.intercalate.go acc "/" as).data
      = acc.data ++ slashed (as.map String.data) := by
  induction as with
  | nil => intro acc; simp [String.intercalate.go, slashed]
  | cons a t ih =>
    intro acc
    simp only [String.intercalate.go, List.map_cons, slashed]
    rw [ih]
    simp [String.data_append]

theorem pathClean_segments (path : String) (seg : List Char) (segs : List (List Char))
    (hpath : path.data = seg ++ slashed segs) (hseg : GoodSeg seg)
    (hall : ∀ s ∈ segs, GoodSeg s) : pathClean path = path := by
  obtain ⟨c, tl, rfl⟩ : ∃ c tl, seg = c :: tl := by
    cases seg with
    | nil => exact absurd rfl hseg.1
    | cons c tl => exact ⟨c, tl, rfl⟩
  have hc : c ≠ '/' := fun h => hseg.2.2.2 (h ▸ List.mem_cons_self _ _)
  have hne : path ≠ "" := by
    intro h
    rw [h] at hpath
    exact absurd hpath (by simp)
  have hhead : ¬ (path.data.head? = some '/') := by
    rw [hpath]
    simpa using hc
  have hloop : cleanLoop false false path.data [] 0 = path.data := by
    rw [hpath, cleanLoop_segments segs (c :: tl) [] 0 hseg hall]
    simp [addSlash]
  have hout : ¬ (path.data = []) := by
    rw [hpath]; simp
  unfold pathClean
  rw [if_neg hne]
  simp only [if_neg hhead, hloop, if_neg hout]

theorem pathJoin_gcr (segs : List String) (hne : segs ≠ [])
    (hall : ∀ s ∈ segs, s ≠ "" ∧ s ≠ "." ∧ s ≠ ".." ∧ '/' ∉ s.data) :
    pathJoin ["gcr.io", "/".intercalate segs] = "gcr.io/" ++ "/".intercalate segs := by
  cases segs with
  | nil => exact absurd rfl hne
  | cons s t =>
    have hdata : ("/".intercalate (s :: t)).data = s.data ++ slashed (t.map String.data) := by
      simp only [String.intercalate]
      exact intercalate_go_data t s
    have hall2 : ∀ x ∈ (s :: t).map String.data, GoodSeg x := by
      intro x hx
      obtain ⟨y, hy, rfl⟩ := List.mem_map.mp hx
      obtain ⟨h1, h2, h3, h4⟩ := hall y hy
      exact ⟨fun h => h1 (String.ext h), fun h => h2 (String.ext h), fun h => h3 (String.ext h), h4⟩
    have hgcr : GoodSeg "gcr.io".data := ⟨by decide, by decide, by decide, by decide⟩
    have hbuf : joinBuf ["gcr.io", "/".intercalate (s :: t)] ""
        = "gcr.io/" ++ "/".intercalate (s :: t) := by
      have h1 : ("gcr.io" : String) ≠ "" := by decide
      have h2 : ("" : String) ++ "gcr.io" = "gcr.io" := by decide
      have h3 : ("gcr.io" : String) ++ "/" = "gcr.io/" := by decide
      simp only [joinBuf, ne_eq, not_true_eq_false, false_or, h1, not_false_eq_true, if_true,
        if_false, h2, true_or, h3]
    have hpath : ("gcr.io/" ++ "/".intercalate (s :: t)).data
        = "gcr.io".data ++ slashed ((s :: t).map String.data) := by
      rw [String.data_append, hdata]
      rfl
    have hallf : ¬ (["gcr.io", "/".intercalate (s :: t)].all (fun e => decide (e = "")) = true) := by
      simp
    unfold pathJoin
    rw [if_neg hallf, hbuf]
    exact pathClean_segments _ _ _ hpath hgcr hall2

namespace parallels

theorem retrieve_eq (w : World) (vm : VM) :
    retrieve w vm =
      match w.ctxErr 0 with
      | some ctxErr => (⟨"", 0, []⟩, some ctxErr)
      | none => retry.loop (runConfig w) (probe w vm) 10 0 ⟨"", 0, []⟩ [] := rfl

theorem loop_events (w : World) (vm : VM) (config : retry.Config) (left : Nat) :
    ∀ (n : Nat) (s : ProbeState) (log : List GoError),
      ∀ e ∈ (retry.loop config (probe w vm) left n s log).1.events,
        e ∈ s.events ∨ e = .RetrieveIP vm := by
  induction left with
  | zero => intro n s log e he; exact Or.inl he
  | succ left ih =>
    intro n s log e he
    have hprobe : ∀ e ∈ (probe w vm s).1.events, e ∈ s.events ∨ e = .RetrieveIP vm := by
      intro e he
      simp only [probe, List.mem_append, List.mem_singleton] at he
      exact he
    unfold retry.loop at he
    cases hr : (probe w vm s).2 with
    | none =>
      have : probe w vm s = ((probe w vm s).1, none) := by rw [← hr]
      rw [this] at he
      exact hprobe e he
    | some err =>
      have : probe w vm s = ((probe w vm s).1, some err) := by rw [← hr]
      rw [this] at he
      simp only at he
      split_ifs at he with h1 h2
      · exact hprobe e he
      · cases hc : config.context (n + 1) with
        | some ctxErr =>
          rw [hc] at he
          exact hprobe e he
        | none =>
          rw [hc] at he
          rcases ih _ _ _ e he with h | h
          · exact hprobe e h
          · exact Or.inr h
      · exact hprobe e he

theorem retrieve_events (w : World) (vm : VM) :
    ∀ e ∈ (retrieve w vm).1.events, e = .RetrieveIP vm := by
  intro e he
  rw [retrieve_eq] at he
  cases hc : w.ctxErr 0 with
  | some ctxErr => rw [hc] at he; simp at he
  | none =>
    rw [hc] at he
    rcases loop_events w vm _ _ _ _ _ e he with h | h
    · simp at h
    · exact h

theorem loop_succeeds (w : World) (vm : VM) (ip : String) (k : Nat) :
    ∀ (left n : Nat) (s : ProbeState) (log : List GoError),
      left + n = 10 → n + k < 10 →
      (∀ i, i < k → ∃ ipi e, w.retrieveIP vm (s.calls + i) = (ipi, some e)
        ∧ errorsIs e w.ErrDHCPSnoopFailed = true) →
      (∀ i, i < k → w.ctxErr (n + i + 1) = none) →
      w.retrieveIP vm (s.calls + k) = (ip, none) →
      retry.loop (runConfig w) (probe w vm) left n s log
        = (⟨ip, s.calls + k + 1, s.events ++ List.replicate (k + 1) (.RetrieveIP vm)⟩, none) := by
  induction k with
  | zero =>
    intro left n s log hleft hn _ _ hok
    obtain ⟨l, rfl⟩ : ∃ l, left = l + 1 := ⟨left - 1, by omega⟩
    simp only [Nat.add_zero] at hok
    simp [retry.loop, probe, hok]
  | succ k ih =>
    intro left n s log hleft hn hfail hctx hok
    obtain ⟨l, rfl⟩ : ∃ l, left = l + 1 := ⟨left - 1, by omega⟩
    obtain ⟨ip0, e0, hp0, he0⟩ := hfail 0 (Nat.succ_pos _)
    simp only [Nat.add_zero] at hp0
    have hc0 := hctx 0 (Nat.succ_pos _)
    simp only [Nat.add_zero] at hc0
    have hlast : ¬ (n = (runConfig w).attempts - 1) := by
      simp only [runConfig]; omega
    have hretry : ¬ ¬ ((runConfig w).retryIf e0 = true) := by
      simpa [runConfig] using he0
    have hcfg : (runConfig w).context (n + 1) = none := hc0
    have hstep : retry.loop (runConfig w) (probe w vm) (l + 1) n s log
        = retry.loop (runConfig w) (probe w vm) l (n + 1)
            ⟨ip0, s.calls + 1, s.events ++ [.RetrieveIP vm]⟩ (log ++ [e0]) := by
      conv_lhs => unfold retry.loop
      simp only [probe, hp0, if_neg hretry, if_neg hlast, hcfg]
    rw [hstep]
    have := ih l (n + 1) ⟨ip0, s.calls + 1, s.events ++ [.RetrieveIP vm]⟩ (log ++ [e0])
      (by omega) (by omega)
      (by
        intro i hi
        have := hfail (i + 1) (by omega)
        simpa [Nat.add_assoc, Nat.add_comm 1 i] using this)
      (by
        intro i hi
        have := hctx (i + 1) (by omega)
        simpa [Nat.add_assoc, Nat.add_comm 1 i, Nat.add_left_comm] using this)
      (by simpa [Nat.add_assoc, Nat.add_comm 1 k] using hok)
    rw [this]
    simp [Nat.add_assoc, Nat.add_comm 1 k, List.replicate_succ]

theorem loop_skips (w : World) (vm : VM) (k : Nat) :
    ∀ (left n : Nat) (s : ProbeState) (log : List GoError),
      left + n = 10 → n + k < 10 →
      (∀ i, i < k → ∃ ipi e, w.retrieveIP vm (s.calls + i) = (ipi, some e)
        ∧ errorsIs e w.ErrDHCPSnoopFailed = true) →
      (∀ i, i < k → w.ctxErr (n + i + 1) = none) →
      ∃ ipk logk, retry.loop (runConfig w) (probe w vm) left n s log
        = retry.loop (runConfig w) (probe w vm) (left - k) (n + k)
            ⟨ipk, s.calls + k, s.events ++ List.replicate k (.RetrieveIP vm)⟩ logk := by
  induction k with
  | zero =>
    intro left n s log _ _ _ _
    exact ⟨s.ip, log, by simp⟩
  | succ k ih =>
    intro left n s log hleft hn hfail hctx
    obtain ⟨l, rfl⟩ : ∃ l, left = l + 1 := ⟨left - 1, by omega⟩
    obtain ⟨ip0, e0, hp0, he0⟩ := hfail 0 (Nat.succ_pos _)
    simp only [Nat.add_zero] at hp0
    have hc0 := hctx 0 (Nat.succ_pos _)
    simp only [Nat.add_zero] at hc0
    have hlast : ¬ (n = (runConfig w).attempts - 1) := by
      simp only [runConfig]; omega
    have hretry : ¬ ¬ ((runConfig w).retryIf e0 = true) := by
      simpa [runConfig] using he0
    have hcfg : (runConfig w).context (n + 1) = none := hc0
    have hstep : retry.loop (runConfig w) (probe w vm) (l + 1) n s log
        = retry.loop (runConfig w) (probe w vm) l (n + 1)
            ⟨ip0, s.calls + 1, s.events ++ [.RetrieveIP vm]⟩ (log ++ [e0]) := by
      conv_lhs => unfold retry.loop
      simp only [probe, hp0, if_neg hretry, if_neg hlast, hcfg]
    obtain ⟨ipk, logk, hk⟩ := ih l (n + 1) ⟨ip0, s.calls + 1, s.events ++ [.RetrieveIP vm]⟩
      (log ++ [e0]) (by omega) (by omega)
      (by
        intro i hi
        have := hfail (i + 1) (by omega)
        simpa [Nat.add_assoc, Nat.add_comm 1 i] using this)
      (by
        intro i hi
        have := hctx (i + 1) (by omega)
        simpa [Nat.add_assoc, Nat.add_comm 1 i, Nat.add_left_comm] using this)
    refine ⟨ipk, logk, ?_⟩
    rw [hstep, hk]
    have e1 : l + 1 - (k + 1) = l - k := by omega
    have e2 : n + 1 + k = n + (k + 1) := by omega
    have e3 : s.calls + 1 + k = s.calls + (k + 1) := by omega
    simp only [e1, e2, e3, List.append_assoc, List.singleton_append, ← List.replicate_succ]

theorem loop_stops (w : World) (vm : VM) (left n : Nat) (s : ProbeState) (log : List GoError)
    (ip : String) (e : GoError) (hp : w.retrieveIP vm s.calls = (ip, some e))
    (he : errorsIs e w.ErrDHCPSnoopFailed = false) :
    retry.loop (runConfig w) (probe w vm) (left + 1) n s log
      = (⟨ip, s.calls + 1, s.events ++ [.RetrieveIP vm]⟩, some (retry.errorLog (log ++ [e]))) := by
  have hretry : ¬ ((runConfig w).retryIf e = true) := by
    simp [runConfig, he]
  conv_lhs => unfold retry.loop
  simp only [probe, hp, if_pos hretry]

theorem loop_cancelled (w : World) (vm : VM) (left n : Nat) (s : ProbeState) (log : List GoError)
    (ip : String) (e c : GoError) (hn : n + 1 < 10)
    (hp : w.retrieveIP vm s.calls = (ip, some e))
    (he : errorsIs e w.ErrDHCPSnoopFailed = true) (hc : w.ctxErr (n + 1) = some c) :
    retry.loop (runConfig w) (probe w vm) (left + 1) n s log
      = (⟨ip, s.calls + 1, s.events ++ [.RetrieveIP vm]⟩, some c) := by
  have hretry : ¬ ¬ ((runConfig w).retryIf e = true) := by
    simpa [runConfig] using he
  have hlast : ¬ (n = (runConfig w).attempts - 1) := by
    simp only [runConfig]; omega
  have hcfg : (runConfig w).context (n + 1) = some c := hc
  conv_lhs => unfold retry.loop
  simp only [probe, hp, if_neg hretry, if_neg hlast, hcfg]

theorem loop_length (w : World) (vm : VM) (config : retry.Config) (left : Nat) :
    ∀ (n : Nat) (s : ProbeState) (log : List GoError),
      (retry.loop config (probe w vm) left n s log).1.events.length ≤ s.events.length + left := by
  induction left with
  | zero => intro n s log; simp [retry.loop]
  | succ left ih =>
    intro n s log
    have hprobe : (probe w vm s).1.events.length = s.events.length + 1 := by
      simp [probe]
    unfold retry.loop
    cases hr : (probe w vm s).2 with
    | none =>
      have : probe w vm s = ((probe w vm s).1, none) := by rw [← hr]
      rw [this]
      simp only
      omega
    | some err =>
      have : probe w vm s = ((probe w vm s).1, some err) := by rw [← hr]
      rw [this]
      simp only
      split_ifs with h1 h2
      · simp only; omega
      · cases hc : config.context (n + 1) with
        | some ctxErr => simp only; omega
        | none =>
          simp only
          have := ih (n + 1) (probe w vm s).1 (log ++ [err])
          omega
      · simp only; omega

theorem retrieve_length (w : World) (vm : VM) : (retrieve w vm).1.events.length ≤ 10 := by
  rw [retrieve_eq]
  cases hc : w.ctxErr 0 with
  | some ctxErr => simp
  | none =>
    have := loop_length w vm (runConfig w) 10 0 ⟨"", 0, []⟩ []
    simpa using this

theorem runCloned_probes (w : World) (parallels : Parallels) (config : RunConfig) (vm : VM) :
    (runCloned w parallels config vm).2.countP isRetrieveIP ≤ 10 := by
  have hlen := retrieve_length w vm
  have hcount : (retrieve w vm).1.events.countP isRetrieveIP ≤ 10 :=
    le_trans (List.countP_le_length _) hlen
  unfold runCloned
  cases hs : w.start vm with
  | some err => simp [List.countP_cons, isRetrieveIP]
  | none =>
    cases hr : (retrieve w vm).2 with
    | some err =>
      have : retrieve w vm = ((retrieve w vm).1, some err) := by rw [← hr]
      rw [this]
      simp only [List.countP_append, List.countP_cons, List.countP_nil, isRetrieveIP]
      simpa using hcount
    | none =>
      have : retrieve w vm = ((retrieve w vm).1, none) := by rw [← hr]
      rw [this]
      simp only [List.countP_append, List.countP_cons, List.countP_nil, isRetrieveIP]
      simpa using hcount

theorem runCloned_no_close (w : World) (parallels : Parallels) (config : RunConfig) (vm : VM) :
    ∀ e ∈ (runCloned w parallels config vm).2, isClose e = false := by
  intro e he
  unfold runCloned at he
  cases hs : w.start vm with
  | some err =>
    rw [hs] at he
    simp only [List.mem_singleton] at he
    rw [he]; rfl
  | none =>
    rw [hs] at he
    have hev := retrieve_events w vm
    cases hr : (retrieve w vm).2 with
    | some err =>
      have : retrieve w vm = ((retrieve w vm).1, some err) := by rw [← hr]
      rw [this] at he
      simp only [List.mem_append, List.mem_singleton] at he
      rcases he with h | h
      · rw [h]; rfl
      · rw [hev e h]; rfl
    | none =>
      have : retrieve w vm = ((retrieve w vm).1, none) := by rw [← hr]
      rw [this] at he
      simp only [List.mem_append, List.mem_singleton] at he
      rcases he with (h | h) | h
      · rw [h]; rfl
      · rw [hev e h]; rfl
      · rw [h]; rfl

/-- Claim C5: when the clone succeeds, whatever the later steps do, the trace of
Run holds exactly one call of vm.Close, and it is the last call Run makes, on the
cloned VM; when the clone fails the trace holds no call of vm.Close. -/
theorem Run_closes_once (w : World) (parallels : Parallels) (config : RunConfig) :
    (∀ vm, w.newVMClonedFrom parallels.vmImage = .ok vm →
      (Run w parallels config).2.countP isClose = 1 ∧
      (Run w parallels config).2.getLast? = some (.Close vm)) ∧
    (∀ err, w.newVMClonedFrom parallels.vmImage = .error err →
      (Run w parallels config).2.countP isClose = 0) := by
  constructor
  · intro vm hclone
    have hbody : List.countP isClose (runCloned w parallels config vm).2 = 0 := by
      rw [List.countP_eq_zero]
      intro e he
      simp [runCloned_no_close w parallels config vm e he]
    simp only [Run, hclone]
    constructor
    · rw [List.countP_append, List.countP_append, hbody]
      rfl
    · rw [List.getLast?_append]
      rfl
  · intro err hclone
    simp only [Run, hclone]
    rfl

/-- The theorem of claim C5 at an execution that succeeds after two retries and at one
whose clone fails. -/
theorem Run_closes_once_witness :
    (Run (exampleWorld 2 none) exampleParallels ⟨0⟩).2.countP isClose = 1 ∧
    (Run (exampleWorld 2 none) exampleParallels ⟨0⟩).2.getLast? = some (.Close exampleVM) ∧
    (Run cloneFailsWorld exampleParallels ⟨0⟩).2.countP isClose = 0 :=
  ⟨((Run_closes_once (exampleWorld 2 none) exampleParallels ⟨0⟩).1 exampleVM rfl).1,
   ((Run_closes_once (exampleWorld 2 none) exampleParallels ⟨0⟩).1 exampleVM rfl).2,
   (Run_closes_once cloneFailsWorld exampleParallels ⟨0⟩).2 _ rfl⟩

theorem Run_of_retrieve_error (w : World) (parallels : Parallels) (config : RunConfig) (vm : VM)
    (s : ProbeState) (cause : GoError)
    (hclone : w.newVMClonedFrom parallels.vmImage = .ok vm) (hstart : w.start vm = none)
    (hret : retrieve w vm = (s, some cause)) :
    Run w parallels config
      = (some (.wrapf (ErrFailed.Error ++ ": failed to retrieve VM " ++ w.quote vm.name ++
          " IP-address: " ++ cause.Error) ErrFailed),
          [.NewVMClonedFrom parallels.vmImage, .Start vm] ++ s.events ++ [.Close vm]) := by
  simp only [Run, hclone, runCloned, hstart, hret]
  simp

theorem Run_of_retrieve_ok (w : World) (parallels : Parallels) (config : RunConfig) (vm : VM)
    (s : ProbeState)
    (hclone : w.newVMClonedFrom parallels.vmImage = .ok vm) (hstart : w.start vm = none)
    (hret : retrieve w vm = (s, none)) :
    Run w parallels config
      = (w.waitForAgent ⟨parallels.logger, s.ip, parallels.sshUser, parallels.sshPassword,
            parallels.agentOS, w.goarch, config, vm.ClonedFromSuspended⟩,
          [.NewVMClonedFrom parallels.vmImage, .Start vm] ++ s.events ++
            [.WaitForAgent ⟨parallels.logger, s.ip, parallels.sshUser, parallels.sshPassword,
              parallels.agentOS, w.goarch, config, vm.ClonedFromSuspended⟩, .Close vm]) := by
  simp only [Run, hclone, runCloned, hstart, hret, agentArgs]
  simp

theorem retrieve_succeeds (w : World) (vm : VM) (ip : String) (n : Nat) (hn : n < 10)
    (hctx : ∀ k, k ≤ n → w.ctxErr k = none)
    (hfail : ∀ i, i < n → ∃ ipi e, w.retrieveIP vm i = (ipi, some e)
      ∧ errorsIs e w.ErrDHCPSnoopFailed = true)
    (hok : w.retrieveIP vm n = (ip, none)) :
    retrieve w vm = (⟨ip, n + 1, List.replicate (n + 1) (.RetrieveIP vm)⟩, none) := by
  rw [retrieve_eq, hctx 0 (Nat.zero_le _)]
  have := loop_succeeds w vm ip n 10 0 ⟨"", 0, []⟩ [] rfl (by omega)
    (by intro i hi; simpa using hfail i hi)
    (fun i hi => hctx _ (by omega)) (by simpa using hok)
  simpa using this

theorem retrieve_stops (w : World) (vm : VM) (ip : String) (e : GoError) (k : Nat) (hk : k < 10)
    (hctx : ∀ j, j ≤ k → w.ctxErr j = none)
    (hfail : ∀ i, i < k → ∃ ipi ei, w.retrieveIP vm i = (ipi, some ei)
      ∧ errorsIs ei w.ErrDHCPSnoopFailed = true)
    (hp : w.retrieveIP vm k = (ip, some e)) (he : errorsIs e w.ErrDHCPSnoopFailed = false) :
    ∃ cause, retrieve w vm
      = (⟨ip, k + 1, List.replicate (k + 1) (.RetrieveIP vm)⟩, some cause) := by
  rw [retrieve_eq, hctx 0 (Nat.zero_le _)]
  obtain ⟨ipk, logk, hskip⟩ := loop_skips w vm k 10 0 ⟨"", 0, []⟩ [] rfl (by omega)
    (by intro i hi; simpa using hfail i hi) (fun i hi => hctx _ (by omega))
  obtain ⟨l, hl⟩ : ∃ l, 10 - k = l + 1 := ⟨9 - k, by omega⟩
  simp only [hskip, hl]
  have := loop_stops w vm l (0 + k) ⟨ipk, 0 + k, [] ++ List.replicate k (.RetrieveIP vm)⟩ logk
    ip e (by simpa using hp) he
  refine ⟨retry.errorLog (logk ++ [e]), ?_⟩
  rw [this]
  simp [List.replicate_succ']

theorem retrieve_cancelled (w : World) (vm : VM) (c : GoError) (k : Nat) (hk : k < 10)
    (hctx : ∀ j, j < k → w.ctxErr j = none) (hdone : w.ctxErr k = some c)
    (hfail : ∀ i, i < k → ∃ ipi ei, w.retrieveIP vm i = (ipi, some ei)
      ∧ errorsIs ei w.ErrDHCPSnoopFailed = true) :
    ∃ ip, retrieve w vm = (⟨ip, k, List.replicate k (.RetrieveIP vm)⟩, some c) := by
  cases k with
  | zero =>
    refine ⟨"", ?_⟩
    rw [retrieve_eq, hdone]
    rfl
  | succ m =>
    rw [retrieve_eq, hctx 0 (Nat.succ_pos _)]
    obtain ⟨ipk, logk, hskip⟩ := loop_skips w vm m 10 0 ⟨"", 0, []⟩ [] rfl (by omega)
      (by intro i hi; simpa using hfail i (by omega)) (fun i hi => hctx _ (by omega))
    obtain ⟨l, hl⟩ : ∃ l, 10 - m = l + 1 := ⟨9 - m, by omega⟩
    obtain ⟨ipm, em, hpm, hem⟩ := hfail m (Nat.lt_succ_self _)
    simp only [hskip, hl]
    have := loop_cancelled w vm l (0 + m) ⟨ipk, 0 + m, [] ++ List.replicate m (.RetrieveIP vm)⟩
      logk ipm em c (by omega) (by simpa using hpm) hem (by simpa using hdone)
    refine ⟨ipm, ?_⟩
    rw [this]
    simp [List.replicate_succ']

/-- Claim C7, amended: the retry of the address discovery is bounded by the
context of the caller and by the ten attempts that retry.Do makes by default.
(1) For every n below ten, if clone and start succeed, the first n calls of
RetrieveIP fail with an error that wraps ErrDHCPSnoopFailed, the context is not
done at any of the n+1 looks the retry takes at it, and call n+1 succeeds with an
address, then Run makes exactly n+1 calls of RetrieveIP, then calls WaitForAgent
with the logger, that address, the SSH user and password, the agent OS, the host
architecture, the run config and the suspended flag of the VM, returns its
result, and closes the VM.  (2) The context bounds the retry: if the context is
found done when k calls (k below ten) have been made, all of them failed with
such an error, Run makes exactly these k calls and none of WaitForAgent, closes
the VM and returns an error that wraps ErrFailed and ends with the text of the
context error.  (3) The attempt count bounds the retry: no execution of Run makes
more than ten calls of RetrieveIP. -/
theorem Run_retries_below_ten (w : World) (parallels : Parallels) (config : RunConfig) :
    (∀ (vm : VM) (ip : String) (n : Nat), n < 10 →
      w.newVMClonedFrom parallels.vmImage = .ok vm → w.start vm = none →
      (∀ k, k ≤ n → w.ctxErr k = none) →
      (∀ i, i < n → ∃ ipi e, w.retrieveIP vm i = (ipi, some e)
        ∧ errorsIs e w.ErrDHCPSnoopFailed = true) →
      w.retrieveIP vm n = (ip, none) →
      Run w parallels config
        = (w.waitForAgent ⟨parallels.logger, ip, parallels.sshUser, parallels.sshPassword,
              parallels.agentOS, w.goarch, config, vm.ClonedFromSuspended⟩,
            [.NewVMClonedFrom parallels.vmImage, .Start vm]
              ++ List.replicate (n + 1) (.RetrieveIP vm)
              ++ [.WaitForAgent ⟨parallels.logger, ip, parallels.sshUser, parallels.sshPassword,
                    parallels.agentOS, w.goarch, config, vm.ClonedFromSuspended⟩,
                  .Close vm])) ∧
    (∀ (vm : VM) (c : GoError) (k : Nat), k < 10 →
      w.newVMClonedFrom parallels.vmImage = .ok vm → w.start vm = none →
      (∀ j, j < k → w.ctxErr j = none) → w.ctxErr k = some c →
      (∀ i, i < k → ∃ ipi e, w.retrieveIP vm i = (ipi, some e)
        ∧ errorsIs e w.ErrDHCPSnoopFailed = true) →
      ∃ err pre, Run w parallels config
          = (some err,
              [.NewVMClonedFrom parallels.vmImage, .Start vm]
                ++ List.replicate k (.RetrieveIP vm) ++ [.Close vm])
        ∧ errorsIs err ErrFailed = true ∧ err.Error = pre ++ c.Error) ∧
    (Run w parallels config).2.countP isRetrieveIP ≤ 10 := by
  refine ⟨?_, ?_, ?_⟩
  · intro vm ip n hn hclone hstart hctx hfail hok
    have hret := retrieve_succeeds w vm ip n hn hctx hfail hok
    rw [Run_of_retrieve_ok w parallels config vm _ hclone hstart hret]
  · intro vm c k hk hclone hstart hctx hdone hfail
    obtain ⟨ip, hret⟩ := retrieve_cancelled w vm c k hk hctx hdone hfail
    refine ⟨_, ErrFailed.Error ++ ": failed to retrieve VM " ++ w.quote vm.name ++
      " IP-address: ", Run_of_retrieve_error w parallels config vm _ c hclone hstart hret,
      errorsIs_wrapf_inner _ ErrFailed, rfl⟩
  · cases hclone : w.newVMClonedFrom parallels.vmImage with
    | error err =>
      simp only [Run, hclone]
      simp [List.countP_cons, isRetrieveIP]
    | ok vm =>
      have := runCloned_probes w parallels config vm
      simp only [Run, hclone, List.countP_append, List.countP_cons, List.countP_nil,
        isRetrieveIP]
      simpa using this

/-- The theorem of claim C7 at n = 9 (nine failed calls, the tenth succeeds and
its address `10.0.0.5` is the one handed to WaitForAgent), and at a context that
is found done after three failed calls. -/
theorem Run_retries_below_ten_witness :
    Run (exampleWorld 9 none) exampleParallels ⟨0⟩
      = (none,
          [.NewVMClonedFrom "template", .Start exampleVM]
            ++ List.replicate 10 (.RetrieveIP exampleVM)
            ++ [.WaitForAgent ⟨⟨0⟩, "10.0.0.5", "admin", "secret", "darwin", "arm64", ⟨0⟩, false⟩,
                .Close exampleVM]) ∧
    ∃ err pre, Run cancelledWorld exampleParallels ⟨0⟩
        = (some err,
            [.NewVMClonedFrom "template", .Start exampleVM]
              ++ List.replicate 3 (.RetrieveIP exampleVM) ++ [.Close exampleVM])
      ∧ errorsIs err ErrFailed = true ∧ err.Error = pre ++ "context canceled" :=
  ⟨(Run_retries_below_ten (exampleWorld 9 none) exampleParallels ⟨0⟩).1 exampleVM "10.0.0.5" 9
      (by decide) rfl rfl (fun _ _ => rfl)
      (fun i hi => ⟨"", .wrapf "no lease yet" exampleSnoop, by simp [exampleWorld, hi],
        by decide⟩)
      (by simp [exampleWorld]),
   (Run_retries_below_ten cancelledWorld exampleParallels ⟨0⟩).2.1 exampleVM
      (.leaf "context.Canceled" "context canceled") 3 (by decide) rfl rfl
      (fun j hj => by simp [cancelledWorld, hj]) (by simp [cancelledWorld])
      (fun i hi => ⟨"", .wrapf "no lease yet" exampleSnoop,
        by simp [cancelledWorld, exampleWorld, Nat.lt_trans hi (by decide : 3 < 10)],
        by decide⟩)⟩

/-- Claim C7, the claim as stated fails at n = 10: clone and start succeed, the
context is never done, the first ten calls of RetrieveIP fail with an error that
wraps ErrDHCPSnoopFailed and an eleventh call would succeed, yet Run makes ten
calls of RetrieveIP only, never calls WaitForAgent and returns an error. -/
theorem Run_retries_counterexample :
    (∀ i, i < 10 → (exampleWorld 10 none).retrieveIP exampleVM i
        = ("", some (.wrapf "no lease yet" exampleSnoop))) ∧
    errorsIs (.wrapf "no lease yet" exampleSnoop) (exampleWorld 10 none).ErrDHCPSnoopFailed = true ∧
    (∀ k, (exampleWorld 10 none).ctxErr k = none) ∧
    (exampleWorld 10 none).retrieveIP exampleVM 10 = ("10.0.0.5", none) ∧
    (Run (exampleWorld 10 none) exampleParallels ⟨0⟩).2
      = [.NewVMClonedFrom "template", .Start exampleVM]
          ++ List.replicate 10 (.RetrieveIP exampleVM) ++ [.Close exampleVM] ∧
    (Run (exampleWorld 10 none) exampleParallels ⟨0⟩).1.isSome = true := by
  refine ⟨?_, by decide, fun _ => rfl, by decide, by decide, by decide⟩
  intro i hi
  simp [exampleWorld, hi]

/-- Claim C6: in the address discovery of Run a failed call of RetrieveIP is
retried only when its error wraps ErrDHCPSnoopFailed.  With clone and start done
and a live context: (1) if the first two calls fail with such an error and the
third succeeds, Run makes three calls of RetrieveIP, then calls WaitForAgent with
the logger, the address returned by the third call, the SSH user and password,
the agent OS, the host architecture, the run config and the suspended flag of
the VM, returns its result and closes the VM; (2) if the first call fails with
any other error, Run makes no further call of RetrieveIP and none of
WaitForAgent, closes the VM and returns an error that wraps ErrFailed; (3) the
same holds for any other error at a later call: after k retried failures (k
below ten) a call that fails with an error that does not wrap ErrDHCPSnoopFailed
is the last one. -/
theorem Run_retry_policy (w : World) (parallels : Parallels) (config : RunConfig) (vm : VM)
    (hclone : w.newVMClonedFrom parallels.vmImage = .ok vm) (hstart : w.start vm = none)
    (hctx0 : w.ctxErr 0 = none) :
    (∀ ip0 e0 ip1 e1 ip,
      w.retrieveIP vm 0 = (ip0, some e0) → errorsIs e0 w.ErrDHCPSnoopFailed = true →
      w.retrieveIP vm 1 = (ip1, some e1) → errorsIs e1 w.ErrDHCPSnoopFailed = true →
      w.retrieveIP vm 2 = (ip, none) → w.ctxErr 1 = none → w.ctxErr 2 = none →
      Run w parallels config
        = (w.waitForAgent ⟨parallels.logger, ip, parallels.sshUser, parallels.sshPassword,
              parallels.agentOS, w.goarch, config, vm.ClonedFromSuspended⟩,
            [.NewVMClonedFrom parallels.vmImage, .Start vm, .RetrieveIP vm, .RetrieveIP vm,
              .RetrieveIP vm,
              .WaitForAgent ⟨parallels.logger, ip, parallels.sshUser, parallels.sshPassword,
                parallels.agentOS, w.goarch, config, vm.ClonedFromSuspended⟩,
              .Close vm])) ∧
    (∀ ip0 e0,
      w.retrieveIP vm 0 = (ip0, some e0) → errorsIs e0 w.ErrDHCPSnoopFailed = false →
      ∃ err, Run w parallels config
          = (some err, [.NewVMClonedFrom parallels.vmImage, .Start vm, .RetrieveIP vm, .Close vm])
        ∧ errorsIs err ErrFailed = true) ∧
    (∀ (k : Nat) ipk e, k < 10 →
      (∀ i, i < k → ∃ ipi ei, w.retrieveIP vm i = (ipi, some ei)
        ∧ errorsIs ei w.ErrDHCPSnoopFailed = true) →
      (∀ j, j ≤ k → w.ctxErr j = none) →
      w.retrieveIP vm k = (ipk, some e) → errorsIs e w.ErrDHCPSnoopFailed = false →
      ∃ err, Run w parallels config
          = (some err,
              [.NewVMClonedFrom parallels.vmImage, .Start vm]
                ++ List.replicate (k + 1) (.RetrieveIP vm) ++ [.Close vm])
        ∧ errorsIs err ErrFailed = true) := by
  have general : ∀ (k : Nat) ipk e, k < 10 →
      (∀ i, i < k → ∃ ipi ei, w.retrieveIP vm i = (ipi, some ei)
        ∧ errorsIs ei w.ErrDHCPSnoopFailed = true) →
      (∀ j, j ≤ k → w.ctxErr j = none) →
      w.retrieveIP vm k = (ipk, some e) → errorsIs e w.ErrDHCPSnoopFailed = false →
      ∃ err, Run w parallels config
          = (some err,
              [.NewVMClonedFrom parallels.vmImage, .Start vm]
                ++ List.replicate (k + 1) (.RetrieveIP vm) ++ [.Close vm])
        ∧ errorsIs err ErrFailed = true := by
    intro k ipk e hk hfail hctx hp he
    obtain ⟨cause, hret⟩ := retrieve_stops w vm ipk e k hk hctx hfail hp he
    exact ⟨_, Run_of_retrieve_error w parallels config vm _ cause hclone hstart hret,
      errorsIs_wrapf_inner _ ErrFailed⟩
  refine ⟨?_, ?_, general⟩
  · intro ip0 e0 ip1 e1 ip h0 he0 h1 he1 h2 hc1 hc2
    have hret := retrieve_succeeds w vm ip 2 (by decide)
      (by
        intro k hk
        interval_cases k
        · exact hctx0
        · exact hc1
        · exact hc2)
      (by
        intro i hi
        interval_cases i
        · exact ⟨ip0, e0, h0, he0⟩
        · exact ⟨ip1, e1, h1, he1⟩)
      h2
    rw [Run_of_retrieve_ok w parallels config vm _ hclone hstart hret]
    simp [List.replicate]
  · intro ip0 e0 h0 he0
    obtain ⟨err, hrun, herr⟩ := general 0 ip0 e0 (by decide) (fun i hi => absurd hi (by omega))
      (fun j hj => by
        have : j = 0 := by omega
        rw [this]; exact hctx0)
      h0 he0
    exact ⟨err, by simpa [List.replicate] using hrun, herr⟩

/-- The theorem of claim C6 at two transient failures and a success (the address
`10.0.0.5` of the third call is the one handed to WaitForAgent), at a first
failure of another kind, and at a failure of another kind after two retried ones. -/
theorem Run_retry_policy_witness :
    Run (exampleWorld 2 none) exampleParallels ⟨0⟩
        = (none,
            [.NewVMClonedFrom "template", .Start exampleVM, .RetrieveIP exampleVM,
              .RetrieveIP exampleVM, .RetrieveIP exampleVM,
              .WaitForAgent ⟨⟨0⟩, "10.0.0.5", "admin", "secret", "darwin", "arm64", ⟨0⟩, false⟩,
              .Close exampleVM]) ∧
    (∃ err, Run brokenWorld exampleParallels ⟨0⟩
        = (some err, [.NewVMClonedFrom "template", .Start exampleVM, .RetrieveIP exampleVM,
            .Close exampleVM])
      ∧ errorsIs err ErrFailed = true) ∧
    ∃ err, Run lateBrokenWorld exampleParallels ⟨0⟩
        = (some err,
            [.NewVMClonedFrom "template", .Start exampleVM]
              ++ List.replicate 3 (.RetrieveIP exampleVM) ++ [.Close exampleVM])
      ∧ errorsIs err ErrFailed = true :=
  ⟨(Run_retry_policy (exampleWorld 2 none) exampleParallels ⟨0⟩ exampleVM rfl rfl rfl).1
      "" (.wrapf "no lease yet" exampleSnoop) "" (.wrapf "no lease yet" exampleSnoop) "10.0.0.5"
      rfl (by decide) rfl (by decide) rfl rfl rfl,
   (Run_retry_policy brokenWorld exampleParallels ⟨0⟩ exampleVM rfl rfl rfl).2.1
      "" (.leaf "parallels.vm" "VM has no network interface") rfl (by decide),
   (Run_retry_policy lateBrokenWorld exampleParallels ⟨0⟩ exampleVM rfl rfl rfl).2.2
      2 "" (.leaf "parallels.vm" "VM has no network interface") (by decide)
      (fun i hi => ⟨"", .wrapf "no lease yet" exampleSnoop,
        by simp [lateBrokenWorld, hi], by decide⟩)
      (fun _ _ => rfl) rfl (by decide)⟩

/-- Claim C8, the claim as stated fails: clone, start and address discovery
succeed and the agent handshake fails with an error of its own; Run returns that
very error, and it does not wrap ErrFailed. -/
theorem Run_errors_counterexample :
    (exampleWorld 0 (some exampleAgentError)).waitForAgent
        (agentArgs (exampleWorld 0 (some exampleAgentError)) exampleParallels ⟨0⟩ exampleVM
          "10.0.0.5") = some exampleAgentError ∧
    Run (exampleWorld 0 (some exampleAgentError)) exampleParallels ⟨0⟩
      = (some exampleAgentError,
          [.NewVMClonedFrom "template", .Start exampleVM, .RetrieveIP exampleVM,
            .WaitForAgent (agentArgs (exampleWorld 0 (some exampleAgentError)) exampleParallels
              ⟨0⟩ exampleVM "10.0.0.5"), .Close exampleVM]) ∧
    errorsIs exampleAgentError ErrFailed = false := by
  refine ⟨rfl, by decide, by decide⟩

/-- Claim C8, amended: an error that Run returns for a failure of the clone, of
the start or of the address discovery wraps ErrFailed and its text ends with the
text of the underlying cause (the error of NewVMClonedFrom, of Start, or of
retry.Do); when these three steps succeed Run returns whatever WaitForAgent
returns, unchanged. -/
theorem Run_errors (w : World) (parallels : Parallels) (config : RunConfig) :
    (∀ cause, w.newVMClonedFrom parallels.vmImage = .error cause →
      ∃ err pre, (Run w parallels config).1 = some err ∧ errorsIs err ErrFailed = true
        ∧ err.Error = pre ++ cause.Error) ∧
    (∀ vm cause, w.newVMClonedFrom parallels.vmImage = .ok vm → w.start vm = some cause →
      ∃ err pre, (Run w parallels config).1 = some err ∧ errorsIs err ErrFailed = true
        ∧ err.Error = pre ++ cause.Error) ∧
    (∀ vm cause, w.newVMClonedFrom parallels.vmImage = .ok vm → w.start vm = none →
      (retrieve w vm).2 = some cause →
      ∃ err pre, (Run w parallels config).1 = some err ∧ errorsIs err ErrFailed = true
        ∧ err.Error = pre ++ cause.Error) ∧
    (∀ vm, w.newVMClonedFrom parallels.vmImage = .ok vm → w.start vm = none →
      (retrieve w vm).2 = none →
      (Run w parallels config).1
        = w.waitForAgent (agentArgs w parallels config vm (retrieve w vm).1.ip)) := by
  refine ⟨?_, ?_, ?_, ?_⟩
  · intro cause hclone
    refine ⟨_, ErrFailed.Error ++ ": failed to create VM cloned from " ++
      w.quote parallels.vmImage ++ ": ", ?_, errorsIs_wrapf_inner _ ErrFailed, rfl⟩
    simp only [Run, hclone]
  · intro vm cause hclone hstart
    refine ⟨_, ErrFailed.Error ++ ": failed to start VM " ++ w.quote vm.Ident ++ ": ", ?_,
      errorsIs_wrapf_inner _ ErrFailed, rfl⟩
    simp only [Run, hclone, runCloned, hstart]
  · intro vm cause hclone hstart hret
    have : retrieve w vm = ((retrieve w vm).1, some cause) := by rw [← hret]
    refine ⟨_, ErrFailed.Error ++ ": failed to retrieve VM " ++ w.quote vm.name ++
      " IP-address: ", ?_, errorsIs_wrapf_inner _ ErrFailed, rfl⟩
    simp only [Run, hclone, runCloned, hstart]
    rw [this]
  · intro vm hclone hstart hret
    have : retrieve w vm = ((retrieve w vm).1, none) := by rw [← hret]
    simp only [Run, hclone, runCloned, hstart]
    rw [this]

/-- The theorem of claim C8 at a failing clone and at a failing handshake. -/
theorem Run_errors_witness :
    (∃ err pre, (Run cloneFailsWorld exampleParallels ⟨0⟩).1 = some err
      ∧ errorsIs err ErrFailed = true ∧ err.Error = pre ++ "template not found") ∧
    (Run (exampleWorld 0 (some exampleAgentError)) exampleParallels ⟨0⟩).1
      = (exampleWorld 0 (some exampleAgentError)).waitForAgent
          (agentArgs (exampleWorld 0 (some exampleAgentError)) exampleParallels ⟨0⟩ exampleVM
            (retrieve (exampleWorld 0 (some exampleAgentError)) exampleVM).1.ip) :=
  ⟨(Run_errors cloneFailsWorld exampleParallels ⟨0⟩).1
      (.leaf "parallels.prlctl" "template not found") rfl,
   (Run_errors (exampleWorld 0 (some exampleAgentError)) exampleParallels ⟨0⟩).2.2.2
      exampleVM rfl rfl rfl⟩

end parallels

/-- Claim C4, the claim as stated fails: for the repository `foo/bar/` and the
reference `v1` the image name is `gcr.io/foo/bar:v1`, since path.Join cleans the
joined path, and not `gcr.io/foo/bar/:v1`. -/
theorem NewFromProto_prebuilt_counterexample :
    (exampleDeps "linux").unmarshalNew ⟨"prebuilt-slash", []⟩
      = .ok (.PrebuiltImageInstance ⟨"foo/bar/", "v1", "", []⟩) ∧
    NewFromProto (exampleDeps "linux") (some ⟨"prebuilt-slash", []⟩) [] "" ⟨0⟩
      = ⟨some (.prebuilt ⟨"gcr.io/foo/bar:v1", "", []⟩), none, []⟩ ∧
    ("gcr.io/foo/bar:v1" : String) ≠ "gcr.io/" ++ "foo/bar/" ++ ":" ++ "v1" :=
  ⟨rfl, by decide, by decide⟩

/-- Claim C4, amended: for a PrebuiltImage descriptor NewFromProto succeeds with
a PrebuiltInstance whose image name is path.Join of `gcr.io` and the repository,
then a colon and the reference, and whose Dockerfile and build arguments are
those of the descriptor; when the repository is a clean relative path (elements
separated by single slashes, none of them empty, `.` or `..`) that name is
`gcr.io/` followed by the repository, a colon and the reference. -/
theorem NewFromProto_prebuilt (deps : Deps) (a : AnyPb) (inst : api.PrebuiltImageInstance)
    (commands : List api.Command) (customWorkingDir : String) (logger : Logger)
    (h : deps.unmarshalNew a = .ok (.PrebuiltImageInstance inst)) :
    NewFromProto deps (some a) commands customWorkingDir logger
      = ⟨some (.prebuilt ⟨pathJoin ["gcr.io", inst.Repository] ++ ":" ++ inst.Reference,
          inst.Dockerfile, inst.Arguments⟩), none, []⟩ ∧
    (∀ segs : List String, segs ≠ [] →
      (∀ s ∈ segs, s ≠ "" ∧ s ≠ "." ∧ s ≠ ".." ∧ '/' ∉ s.data) →
      inst.Repository = "/".intercalate segs →
      NewFromProto deps (some a) commands customWorkingDir logger
        = ⟨some (.prebuilt ⟨"gcr.io/" ++ inst.Repository ++ ":" ++ inst.Reference,
            inst.Dockerfile, inst.Arguments⟩), none, []⟩) := by
  have hr : NewFromProto deps (some a) commands customWorkingDir logger
      = ⟨some (.prebuilt ⟨pathJoin ["gcr.io", inst.Repository] ++ ":" ++ inst.Reference,
          inst.Dockerfile, inst.Arguments⟩), none, []⟩ := by
    simp only [NewFromProto, h]
  refine ⟨hr, ?_⟩
  intro segs hne hall hrepo
  rw [hr, hrepo, pathJoin_gcr segs hne hall]

/-- The theorem of claim C4 at the repository `foo/bar` and the reference `v1`. -/
theorem NewFromProto_prebuilt_witness :
    NewFromProto (exampleDeps "linux") (some ⟨"prebuilt", []⟩) [] "" ⟨0⟩
      = ⟨some (.prebuilt ⟨"gcr.io/" ++ "foo/bar" ++ ":" ++ "v1", "Dockerfile", [("k", "v")]⟩),
          none, []⟩ :=
  (NewFromProto_prebuilt (exampleDeps "linux") ⟨"prebuilt", []⟩
    ⟨"foo/bar", "v1", "Dockerfile", [("k", "v")]⟩ [] "" ⟨0⟩ rfl).2 ["foo", "bar"]
    (by decide) (by decide) (by decide)

end CirrusCLI
